import Mathlib

/-!
Verification development for the interaction-processing pipeline and the
temporal analytics engine of the `interactive_system_prototype` repository
(`backend/enhanced_persona_sync.py`, `backend/ris_data_model.py`,
`backend/emotion_report_generator.py`, `backend/llm_multimodal_service.py`).

The Python sources are shallowly embedded: JSON values become the inductive
`JVal` (numbers as exact rationals), `json.loads` becomes the fuel-based
recursive-descent parser `parseJson`, the sqlite-backed store becomes explicit
record lists threaded through a state-and-exception monad `M`, and each
network call to the completion endpoint consumes the next entry of an oracle
`Nat → Except Unit String` (retry exhaustion inside `LLMRequester._post` is
collapsed into a single transport outcome, as only the final outcome is
observable to callers).
-/

namespace RIS

/-- JSON values as produced by `json.loads`.  A number is kept as the exact
scaled decimal `m / 10^s` (mantissa and scale); the Python floats in scope
carry no precision-sensitive logic, so exact decimals model them. -/
inductive JVal where
  | null : JVal
  | bool : Bool → JVal
  | num : Int → Nat → JVal
  | str : String → JVal
  | arr : List JVal → JVal
  | obj : List (String × JVal) → JVal

/-- The rational value of the number `JVal.num m s`, for use in statements. -/
def jnumToQ (m : Int) (s : Nat) : ℚ := (m : ℚ) / 10 ^ s

/-- Structural Boolean equality on `JVal` (Python `==` on parsed JSON). -/
def JVal.beq : JVal → JVal → Bool
  | .null, .null => true
  | .bool a, .bool b => a == b
  | .num m1 s1, .num m2 s2 => m1 * 10 ^ s2 == m2 * 10 ^ s1
  | .str a, .str b => a == b
  | .arr xs, .arr ys =>
      xs.length == ys.length &&
        (List.zip xs ys).attach.all (fun q => JVal.beq q.1.1 q.1.2)
  | .obj xs, .obj ys =>
      xs.length == ys.length &&
        (List.zip xs ys).attach.all
          (fun q => q.1.1.1 == q.1.2.1 && JVal.beq q.1.1.2 q.1.2.2)
  | _, _ => false
termination_by a _ => sizeOf a
decreasing_by
  all_goals simp_wf
  · obtain ⟨⟨x, y⟩, hq⟩ := q
    have := List.sizeOf_lt_of_mem (List.of_mem_zip hq).1
    simp
    omega
  · obtain ⟨⟨⟨k, v⟩, b⟩, hq⟩ := q
    have h1 := List.sizeOf_lt_of_mem (List.of_mem_zip hq).1
    simp at h1 ⊢
    omega

instance : BEq JVal := ⟨JVal.beq⟩

/-- Python truthiness of a JSON value (`bool(v)`), used by the
`x or default` idioms of the data layer. -/
def JVal.falsy : JVal → Bool
  | .null => true
  | .bool b => !b
  | .num m _ => m == 0
  | .str s => s.isEmpty
  | .arr xs => xs.isEmpty
  | .obj kvs => kvs.isEmpty

/-- Python `x or default` on JSON values. -/
def pyOr (v default : JVal) : JVal := if v.falsy then default else v

/-- `v.isObj` holds for JSON objects. -/
def JVal.isObj : JVal → Bool
  | .obj _ => true
  | _ => false

/-- Assoc-list lookup used for Python `dict` access on parsed JSON. -/
def jlookup (kvs : List (String × JVal)) (k : String) : Option JVal :=
  (kvs.find? (fun kv => kv.1 == k)).map (·.2)

/-- Dict insertion with replace-on-duplicate, mirroring how `json.loads`
builds a `dict` (a repeated key keeps the last value). -/
def jinsert (kvs : List (String × JVal)) (k : String) (v : JVal) :
    List (String × JVal) :=
  if (kvs.find? (fun kv => kv.1 == k)).isSome then
    kvs.map (fun kv => if kv.1 == k then (k, v) else kv)
  else kvs ++ [(k, v)]

end RIS

namespace RIS

/-! ### A recursive-descent JSON parser (model of `json.loads`)

The parser consumes a `List Char`; `parseJson` succeeds only when the whole
input (up to surrounding whitespace) is one JSON value, as `json.loads`
requires.  `\u` escapes map their 4-digit code directly to a character
(surrogate-pair recombination is not modelled; no claim exercises it). -/

def isJsonWs (c : Char) : Bool :=
  c = ' ' || c = '\t' || c = '\n' || c = '\r'

def skipWs : List Char → List Char
  | [] => []
  | c :: rest => if isJsonWs c then skipWs rest else c :: rest

def isHexDigit (c : Char) : Bool :=
  c.isDigit || ('a' ≤ c && c ≤ 'f') || ('A' ≤ c && c ≤ 'F')

def hexVal (c : Char) : Nat :=
  if c.isDigit then c.toNat - '0'.toNat
  else if 'a' ≤ c && c ≤ 'f' then c.toNat - 'a'.toNat + 10
  else c.toNat - 'A'.toNat + 10

/-- Parse the body of a JSON string literal after the opening quote. -/
def parseStringBody (fuel : Nat) (l : List Char) : Option (String × List Char) :=
  match fuel with
  | 0 => none
  | fuel + 1 =>
    match l with
    | [] => none
    | '"' :: rest => some ("", rest)
    | '\\' :: esc :: rest =>
      let cont (c : Char) (rest : List Char) : Option (String × List Char) :=
        match parseStringBody fuel rest with
        | some (s, r) => some (c.toString ++ s, r)
        | none => none
      match esc with
      | '"' => cont '"' rest
      | '\\' => cont '\\' rest
      | '/' => cont '/' rest
      | 'b' => cont (Char.ofNat 8) rest
      | 'f' => cont (Char.ofNat 12) rest
      | 'n' => cont '\n' rest
      | 'r' => cont '\r' rest
      | 't' => cont '\t' rest
      | 'u' =>
        match rest with
        | a :: b :: c :: d :: rest' =>
          if isHexDigit a && isHexDigit b && isHexDigit c && isHexDigit d then
            cont (Char.ofNat
              (hexVal a * 4096 + hexVal b * 256 + hexVal c * 16 + hexVal d)) rest'
          else none
        | _ => none
      | _ => none
    | c :: rest =>
      if c.toNat < 32 then none
      else
        match parseStringBody fuel rest with
        | some (s, r) => some (c.toString ++ s, r)
        | none => none

/-- Greedily read a digit run, returning its value and length. -/
def parseDigits : List Char → Nat × Nat × List Char
  | [] => (0, 0, [])
  | c :: rest =>
    if c.isDigit then
      let (v, n, r) := parseDigits rest
      -- value is accumulated most-significant-first by the caller's fold,
      -- so return digits positionally: c is the most significant here
      (c.toNat - '0'.toNat) * 10 ^ n + v |> fun val => (val, n + 1, r)
    else (0, 0, c :: rest)

/-- Parse a JSON number (after an optional leading `-`, which the caller
has recorded in `neg`), producing an exact scaled decimal. -/
def parseNumber (neg : Bool) (l : List Char) : Option ((Int × Nat) × List Char) :=
  -- integer part: "0" alone or a nonzero digit followed by digits
  match l with
  | [] => none
  | c :: _ =>
    if !c.isDigit then none
    else if c = '0' && (l.tail.head?.elim false Char.isDigit) then none
    else
      let (ip, ipn, r1) := parseDigits l
      if ipn = 0 then none else
      let step2 : Option ((Nat × Nat) × List Char) :=
        -- mantissa and scale after the optional fraction part
        match r1 with
        | '.' :: r =>
          let (fp, fpn, r') := parseDigits r
          if fpn = 0 then none  -- a lone '.' with no digits is invalid JSON
          else some ((ip * 10 ^ fpn + fp, fpn), r')
        | _ => some ((ip, 0), r1)
      match step2 with
      | none => none
      | some ((mant, scale), r2) =>
        let applyExp : Option ((Nat × Nat) × List Char) :=
          match r2 with
          | 'e' :: r' | 'E' :: r' =>
            let (esign, r'') : Bool × List Char :=
              match r' with
              | '+' :: t => (false, t)
              | '-' :: t => (true, t)
              | t => (false, t)
            let (ev, evn, r3) := parseDigits r''
            if evn = 0 then none
            else if esign then some ((mant, scale + ev), r3)
            else some ((mant * 10 ^ ev, scale), r3)
          | _ => some ((mant, scale), r2)
        match applyExp with
        | some ((m, s), r3) =>
          some (((if neg then -(m : Int) else (m : Int)), s), r3)
        | none => none

mutual

/-- Parse one JSON value from the front of the input. -/
def parseValue (fuel : Nat) (l : List Char) : Option (JVal × List Char) :=
  match fuel with
  | 0 => none
  | fuel + 1 =>
    match skipWs l with
    | 'n' :: 'u' :: 'l' :: 'l' :: r => some (.null, r)
    | 't' :: 'r' :: 'u' :: 'e' :: r => some (.bool true, r)
    | 'f' :: 'a' :: 'l' :: 's' :: 'e' :: r => some (.bool false, r)
    | '"' :: r =>
      match parseStringBody fuel r with
      | some (s, r') => some (.str s, r')
      | none => none
    | '{' :: r =>
      match skipWs r with
      | '}' :: r' => some (.obj [], r')
      | r' =>
        match parseMembers fuel r' [] with
        | some (kvs, r'') => some (.obj kvs, r'')
        | none => none
    | '[' :: r =>
      match skipWs r with
      | ']' :: r' => some (.arr [], r')
      | r' =>
        match parseElements fuel r' with
        | some (xs, r'') => some (.arr xs, r'')
        | none => none
    | '-' :: r =>
      match parseNumber true r with
      | some ((m, s), r') => some (.num m s, r')
      | none => none
    | c :: r =>
      if c.isDigit then
        match parseNumber false (c :: r) with
        | some ((m, s), r') => some (.num m s, r')
        | none => none
      else none
    | [] => none

/-- Parse the members of an object after `{` (first key expected next). -/
def parseMembers (fuel : Nat) (l : List Char) (acc : List (String × JVal)) :
    Option (List (String × JVal) × List Char) :=
  match fuel with
  | 0 => none
  | fuel + 1 =>
    match skipWs l with
    | '"' :: r =>
      match parseStringBody fuel r with
      | some (k, r') =>
        match skipWs r' with
        | ':' :: r'' =>
          match parseValue fuel r'' with
          | some (v, r3) =>
            let acc' := jinsert acc k v
            match skipWs r3 with
            | ',' :: r4 => parseMembers fuel r4 acc'
            | '}' :: r4 => some (acc', r4)
            | _ => none
          | none => none
        | _ => none
      | none => none
    | _ => none

/-- Parse the elements of an array after `[` (first element expected next). -/
def parseElements (fuel : Nat) (l : List Char) :
    Option (List JVal × List Char) :=
  match fuel with
  | 0 => none
  | fuel + 1 =>
    match parseValue fuel l with
    | some (v, r) =>
      match skipWs r with
      | ',' :: r' =>
        match parseElements fuel r' with
        | some (xs, r'') => some (v :: xs, r'')
        | none => none
      | ']' :: r' => some ([v], r')
      | _ => none
    | none => none

end

/-- `json.loads`: parse the whole input as a single JSON value, allowing
surrounding whitespace only. -/
def parseJson (l : List Char) : Option JVal :=
  match parseValue (l.length + 1) l with
  | some (v, r) =>
    match skipWs r with
    | [] => some v
    | _ => none
  | none => none

/-! ### Python string helpers used by `_ask_json` (lines 209–220) -/

/-- Index of the first occurrence of `c`, if any. -/
def pyFindAux (c : Char) : List Char → Option Nat
  | [] => none
  | x :: xs => if x = c then some 0 else (pyFindAux c xs).map (· + 1)

/-- Python `str.find(c)`: first index of `c`, or −1. -/
def pyFind (l : List Char) (c : Char) : Int :=
  match pyFindAux c l with
  | some i => (i : Int)
  | none => -1

/-- Python `str.rfind(c)`: last index of `c`, or −1. -/
def pyRFind (l : List Char) (c : Char) : Int :=
  match pyFindAux c l.reverse with
  | some i => (l.length : Int) - 1 - (i : Int)
  | none => -1

/-- Normalization of one Python slice index against length `n`: negative
indices count from the end, and the result is clamped into `[0, n]`. -/
def pyIdxNorm (n : Nat) (i : Int) : Int :=
  if i < 0 then max (i + n) 0 else min i n

/-- Python slicing `s[start:stop]`. -/
def pySlice (l : List Char) (start stop : Int) : List Char :=
  (l.drop (pyIdxNorm l.length start).toNat).take
    ((pyIdxNorm l.length stop).toNat - (pyIdxNorm l.length start).toNat)

/-- The best-effort JSON extraction at the heart of
`EnhancedPersonaSync._ask_json`: slice from the first `{` to the last `}`,
`json.loads` the slice, and return the fallback on any failure. -/
def extractJson (txt : List Char) (fallback : JVal) : JVal :=
  match parseJson (pySlice txt (pyFind txt '{') (pyRFind txt '}' + 1)) with
  | some v => v
  | none => fallback

/-- The text contains a `{` strictly before a `}` — equivalently, it
contains a balanced `{...}` substring (take the last `{` before the first
`}` after it: the enclosed substring has no further braces). -/
def hasBracePair (txt : List Char) : Prop :=
  ∃ i j : Nat, i < j ∧ txt[i]? = some '{' ∧ txt[j]? = some '}'


end RIS

namespace RIS

/-! ### Exceptions and the pipeline state

`M α` runs a computation on a `Ctx` and returns its outcome together with
the final state.  The state survives an exception, matching Python with a
sqlite store that commits after every call: records written before a raise
stay written. -/

/-- The Python exceptions reachable in the embedded code.  `transport` is
the `RuntimeError` that `LLMRequester._post` raises after retry exhaustion
(lines 72–86; the retries and backoff are internal and only their final
outcome is observable). -/
inductive PyErr where
  | transport
  | keyError (k : String)
  | attrError
  | typeError
  | valueError (msg : String)
  | indexError
  | nameError
deriving DecidableEq

/-- A row of the `personas` table (ris_data_model.py lines 81–97).
`emotional_tendencies`, `context_info` and the timestamps are written with
constant values and never read back in scope, so they are not carried. -/
structure PersonaRec where
  persona_id : Nat
  user_id : String
  name : String
  description : String
  personality_traits : JVal
  communication_style : JVal
  interaction_count : Nat
  avatar_type : JVal

/-- A row of the `interaction_logs` table (lines 44–58). -/
structure LogRec where
  log_id : Nat
  user_id : String
  timestamp : Nat
  input_type : String
  detected_emotion : JVal
  emotion_label : JVal
  response_avatar : String
  raw_input_data : JVal
  processing_metadata : List (String × String)

/-- A row of the `memory_events` table (lines 60–78).  `emotionAnn` is the
`emotion_annotation` column. -/
structure MemoryRec where
  memory_id : Nat
  user_id : String
  interaction_log_id : Nat
  media_reference : JVal
  emotionAnn : JVal
  linked_topic : JVal
  response_history : JVal
  memory_type : JVal
  importance_score : JVal
  created_at : Nat
  tags : JVal
  entities : JVal

/-- A row of the `emotion_analysis` table (lines 99–111). -/
structure AnalysisRec where
  analysis_id : Nat
  interaction_log_id : Nat
  pad_values : JVal
  emotion_categories : JVal
  confidence_scores : JVal
  analysis_method : JVal
  created_at : Nat

/-- The full store plus the ambient effects: a strictly increasing clock
standing for `datetime.now()`, a fresh-id counter standing for
`uuid.uuid4()`, and the completion endpoint as an oracle consumed one call
at a time (`callIdx` is the number of calls made so far). -/
structure Ctx where
  users : List String
  logs : List LogRec
  memories : List MemoryRec
  personas : List PersonaRec
  analyses : List AnalysisRec
  time : Nat
  nextId : Nat
  callIdx : Nat
  oracle : Nat → Except Unit String

/-- State-and-exception monad over `Ctx`. -/
def M (α : Type) : Type := Ctx → Except PyErr α × Ctx

def M.pure (a : α) : M α := fun s => (.ok a, s)

def M.bind (m : M α) (f : α → M β) : M β := fun s =>
  match m s with
  | (.ok a, s') => f a s'
  | (.error e, s') => (.error e, s')

instance : Monad M where
  pure := M.pure
  bind := M.bind

/-- `raise e`. -/
def M.throw (e : PyErr) : M α := fun s => (.error e, s)

/-- `try/except Exception` (the state reached before the raise is kept). -/
def M.tryCatch (m : M α) (h : PyErr → M α) : M α := fun s =>
  match m s with
  | (.error e, s') => h e s'
  | r => r

def M.modifyCtx (f : Ctx → Ctx) : M Unit := fun s => (.ok (), f s)

def M.read (f : Ctx → α) : M α := fun s => (.ok (f s), s)

/-- Monadic map in evaluation order (model of a Python `for`-append loop). -/
def mmap (f : α → M β) : List α → M (List β)
  | [] => M.pure []
  | x :: xs => M.bind (f x) fun y => M.bind (mmap f xs) fun ys => M.pure (y :: ys)

/-- Monadic filter in evaluation order (model of a guarded comprehension). -/
def mfilter (f : α → M Bool) : List α → M (List α)
  | [] => M.pure []
  | x :: xs =>
    M.bind (f x) fun b => M.bind (mfilter f xs) fun ys =>
      M.pure (if b then x :: ys else ys)

/-! ### Python dict/list access on parsed JSON -/

/-- Python `d.get(k, default)`: `AttributeError` when the receiver is not a
dict, the default when the key is absent. -/
def pyGet (v : JVal) (k : String) (default : JVal) : M JVal :=
  match v with
  | .obj kvs => M.pure ((jlookup kvs k).getD default)
  | _ => M.throw .attrError

/-- Python `d[k]` on a parsed JSON value: `KeyError` when the key is
absent, `TypeError` when the receiver is not a dict. -/
def pyIndex (v : JVal) (k : String) : M JVal :=
  match v with
  | .obj kvs =>
    match jlookup kvs k with
    | some x => M.pure x
    | none => M.throw (.keyError k)
  | _ => M.throw .typeError

/-- Iterate a JSON value as a Python list of person-name strings.
Modelling note: the pipeline only realizes string entries here; a
non-string or non-list value is mapped to `TypeError` (Python would
variously iterate characters or dict keys, paths no claim exercises). -/
def pyStrList (v : JVal) : M (List String) :=
  match v with
  | .arr xs =>
    mmap (fun x => match x with
      | .str s => M.pure s
      | _ => M.throw .typeError) xs
  | _ => M.throw .typeError

/-- Python `", ".join(v)`: `TypeError` unless `v` is a list of strings. -/
def pyJoin (sep : String) (v : JVal) : M String :=
  match v with
  | .arr xs =>
    M.bind (mmap (fun x => match x with
      | .str s => M.pure s
      | _ => M.throw (.typeError : PyErr)) xs) fun strs =>
    M.pure (String.intercalate sep strs)
  | _ => M.throw .typeError

/-- Python f-string conversion of a JSON value; only its stringness
matters (the result flows into prompts, which the oracle abstracts). -/
def pyStr : JVal → String
  | .null => "None"
  | .bool b => if b then "True" else "False"
  | .num m s => toString m ++ (if s = 0 then "" else "/10^" ++ toString s)
  | .str s => s
  | .arr _ => "[...]"
  | .obj _ => "\x7b...\x7d"

/-- Python `v >= tm/10^ts` for a JSON number (exact decimal comparison). -/
def pyGeFloat (v : JVal) (tm : Int) (ts : Nat) : M Bool :=
  match v with
  | .num m s => M.pure (decide (m * (10 : Int) ^ ts ≥ tm * (10 : Int) ^ s))
  | _ => M.throw .typeError

/-! ### The relational store: `RISDataModel` (ris_data_model.py)

`uuid.uuid4()` becomes a fresh counter (only distinctness is observable)
and `datetime.now().isoformat()` a strictly increasing `Nat` clock (wall
clock time is strictly increasing at the granularity of separate calls).
`get_personas` returns rows in insertion (rowid) order, as sqlite does for
an unordered `SELECT` over an append-only table. -/

def freshId : M Nat := fun s => (.ok s.nextId, { s with nextId := s.nextId + 1 })

def now : M Nat := fun s => (.ok s.time, { s with time := s.time + 1 })

/-- `get_user_profile` (lines 354–374); the pipeline only tests presence. -/
def get_user_profile (user_id : String) : M Bool :=
  M.read fun s => s.users.contains user_id

/-- `create_user_profile` (lines 117–165); `INSERT OR REPLACE` keyed on the
user id, so presence-wise an idempotent insert. -/
def create_user_profile (user_id : String) : M String :=
  M.bind (M.modifyCtx fun s =>
    if s.users.contains user_id then s
    else { s with users := s.users ++ [user_id] }) fun _ =>
  M.pure user_id

/-- `log_interaction` (lines 167–209). -/
def log_interaction (user_id : String) (input_type : String)
    (detected_emotion : JVal) (emotion_label : JVal)
    (response_avatar : Option String) (raw_input_data : JVal) : M Nat :=
  M.bind freshId fun id =>
  M.bind now fun t =>
  M.bind (M.modifyCtx fun s => { s with logs := s.logs ++ [{
      log_id := id, user_id := user_id, timestamp := t,
      input_type := input_type, detected_emotion := detected_emotion,
      emotion_label := emotion_label,
      response_avatar := response_avatar.getD "",
      raw_input_data := raw_input_data,
      processing_metadata := [] }] }) fun _ =>
  M.pure id

/-- `create_memory_event` (lines 211–262), with the source's positional
parameter order `(user_id, interaction_log_id, emotion_annotation,
linked_topic, memory_type, importance_score, media_reference, tags,
entities)` and its `x or default` normalizations. -/
def create_memory_event (user_id : String) (interaction_log_id : Nat)
    (emotionAnn : JVal) (linked_topic : JVal) (memory_type : JVal)
    (importance_score : JVal) (media_reference : JVal) (tags : JVal)
    (entities : JVal) : M Nat :=
  M.bind freshId fun id =>
  M.bind now fun t =>
  M.bind (M.modifyCtx fun s => { s with memories := s.memories ++ [{
      memory_id := id, user_id := user_id,
      interaction_log_id := interaction_log_id,
      media_reference := pyOr media_reference (.str ""),
      emotionAnn := emotionAnn,
      linked_topic := pyOr linked_topic (.str ""),
      response_history := .arr [],
      memory_type := memory_type,
      importance_score := importance_score,
      created_at := t,
      tags := pyOr tags (.arr []),
      entities := pyOr entities (.obj []) }] }) fun _ =>
  M.pure id

/-- `create_persona` (lines 264–311). -/
def create_persona (user_id : String) (name : String)
    (description : Option String) (personality_traits : JVal)
    (communication_style : JVal) (avatar_type : JVal) : M Nat :=
  M.bind freshId fun id =>
  M.bind now fun _t =>
  M.bind (M.modifyCtx fun s => { s with personas := s.personas ++ [{
      persona_id := id, user_id := user_id, name := name,
      description := description.getD ("角色: " ++ name),
      personality_traits := pyOr personality_traits (.arr []),
      communication_style := pyOr communication_style (.str "neutral"),
      interaction_count := 0,
      avatar_type := avatar_type }] }) fun _ =>
  M.pure id

/-- `save_emotion_analysis` (lines 313–352). -/
def save_emotion_analysis (interaction_log_id : Nat) (pad_values : JVal)
    (emotion_categories : JVal) (confidence_scores : JVal)
    (analysis_method : JVal) : M Nat :=
  M.bind freshId fun id =>
  M.bind now fun t =>
  M.bind (M.modifyCtx fun s => { s with analyses := s.analyses ++ [{
      analysis_id := id, interaction_log_id := interaction_log_id,
      pad_values := pad_values, emotion_categories := emotion_categories,
      confidence_scores := confidence_scores,
      analysis_method := analysis_method, created_at := t }] }) fun _ =>
  M.pure id

/-- `get_interaction_logs` (lines 376–405): the user's rows, `ORDER BY
timestamp DESC`, `LIMIT limit`. -/
def get_interaction_logs (user_id : String) (limit : Nat) : M (List LogRec) :=
  M.read fun s =>
    ((s.logs.filter (fun l => l.user_id == user_id)).insertionSort
      (fun a b => b.timestamp ≤ a.timestamp)).take limit

/-- `get_memory_events` (lines 407–447): the user's rows, optionally
filtered by type, `ORDER BY created_at DESC`, `LIMIT limit`. -/
def get_memory_events (user_id : String) (memory_type : Option JVal)
    (limit : Nat) : M (List MemoryRec) :=
  M.read fun s =>
    ((s.memories.filter (fun m => m.user_id == user_id &&
        match memory_type with
        | some ty => JVal.beq m.memory_type ty
        | none => true)).insertionSort
      (fun a b => b.created_at ≤ a.created_at)).take limit

/-- `get_personas` (lines 449–476): the user's rows in rowid order. -/
def get_personas (user_id : String) : M (List PersonaRec) :=
  M.read fun s => s.personas.filter (fun p => p.user_id == user_id)

/-- `json_set(metadata, key, value)`: replace or append one key. -/
def setMeta (m : List (String × String)) (k v : String) :
    List (String × String) :=
  if (m.find? (fun kv => kv.1 == k)).isSome then
    m.map (fun kv => if kv.1 == k then (k, v) else kv)
  else m ++ [(k, v)]

/-- `save_assistant_reply` (lines 548–564): one `UPDATE ... WHERE log_id`. -/
def save_assistant_reply (log_id : Nat) (reply : String) : M Unit :=
  M.modifyCtx fun s => { s with logs := s.logs.map (fun l =>
    if l.log_id == log_id then
      { l with processing_metadata := setMeta l.processing_metadata "assistant_reply" reply }
    else l) }

/-- `increment_persona_interaction` (lines 569–583): one `UPDATE ... WHERE
persona_id` adding `inc` (default 1). -/
def increment_persona_interaction (persona_id : Nat) (inc : Nat := 1) : M Unit :=
  M.bind now fun _t =>
  M.modifyCtx fun s => { s with personas := s.personas.map (fun p =>
    if p.persona_id == persona_id then
      { p with interaction_count := p.interaction_count + inc }
    else p) }

end RIS

namespace RIS

/-! ### `LLMRequester` and `EnhancedPersonaSync` (enhanced_persona_sync.py)

Each `chat`/`chat_with_image` call consumes one oracle entry: `.ok c` is a
response whose `choices[0].message.content` is `c`; `.error ()` is a
transport failure (connection error, non-2xx, or timeout) that survives
every retry of `_post`, surfacing as its final `RuntimeError`.  Prompt and
message payloads are assembled where their assembly itself can raise, but
their content does not influence the oracle. -/

/-- Python `str.strip()` over the whitespace the responses contain. -/
def pyStrip (s : String) : String :=
  String.mk (((s.toList.dropWhile isJsonWs).reverse.dropWhile isJsonWs).reverse)

/-- `LLMRequester.chat` (lines 89–98) via `_post` (lines 72–86). -/
def chat (_messages : List String) : M String := fun s =>
  match s.oracle s.callIdx with
  | .ok content => (.ok content, { s with callIdx := s.callIdx + 1 })
  | .error _ => (.error .transport, { s with callIdx := s.callIdx + 1 })

/-- `LLMRequester.chat_with_image` (lines 100–109): same request path with
the image payload inlined into the message; the oracle covers both. -/
def chat_with_image (_messages : List String) : M String := fun s =>
  match s.oracle s.callIdx with
  | .ok content => (.ok content, { s with callIdx := s.callIdx + 1 })
  | .error _ => (.error .transport, { s with callIdx := s.callIdx + 1 })

/-- `EnhancedPersonaSync._ask_json` (lines 196–220): one `chat` call, then
best-effort extraction; the surrounding `except Exception` catches both a
transport failure and a parse failure, returning the fallback. -/
def ask_json (prompt : String) (fallback : JVal) : M JVal :=
  M.tryCatch
    (M.bind (chat [prompt]) fun txt => M.pure (extractJson txt.toList fallback))
    (fun _ => M.pure fallback)

/-- The neutral PAD triple of the `_analyze_emotion` fallback. -/
def neutralPadVals : JVal := .obj [
  ("pleasure", .num 5 1), ("arousal", .num 5 1), ("dominance", .num 5 1)]

/-- The neutral category of the `_analyze_emotion` fallback. -/
def neutralEmoCat : JVal := .obj [
  ("label", .str "neutral"), ("emotion", .str "neutral"),
  ("intensity", .num 0 0)]

/-- The typed fallback of `_analyze_emotion` (lines 260–264).  It carries
no `confidence` key. -/
def emotionFallback : JVal := .obj [
  ("pad_values", neutralPadVals),
  ("emotion_category", neutralEmoCat),
  ("analysis_method", .str "fallback")]

/-- `_analyze_emotion` (lines 223–264). -/
def analyze_emotion (text : String) : M JVal :=
  ask_json ("PAD emotion analysis of: " ++ text) emotionFallback

/-- `_JSON_FALLBACK_ENTITIES` (line 124). -/
def entitiesFallback : JVal := .obj [
  ("persons", .arr []), ("locations", .arr []),
  ("time_expressions", .arr []), ("events", .arr []),
  ("organizations", .arr [])]

/-- `_extract_entities` (lines 267–271). -/
def extract_entities (text : String) : M JVal :=
  ask_json ("entity extraction of: " ++ text) entitiesFallback

/-- `_analyze_style` (lines 274–276). -/
def analyze_style (text : String) : M JVal :=
  ask_json ("style analysis of: " ++ text) (.obj [])

/-- `_extract_temporal` (lines 279–281). -/
def extract_temporal (text : String) : M JVal :=
  ask_json ("temporal/spatial extraction of: " ++ text) (.obj [])

/-- An entry of the `new_personas` result list (line 298). -/
structure NewPersona where
  persona_id : Nat
  info : JVal
  name : String

/-- The loop body of `_create_personas` (lines 284–299): for each person
name, re-read the user's personas, skip known names, otherwise infer info
and create the persona. -/
def create_personas_loop (user_id : String) (style : JVal) :
    List String → M (List NewPersona)
  | [] => M.pure []
  | name :: rest =>
    M.bind (get_personas user_id) fun ps =>
    if ps.any (fun p => p.name == name) then
      create_personas_loop user_id style rest
    else
      M.bind (ask_json ("infer persona info for: " ++ name)
        (.obj [("personality_traits", .arr [.str "普通"]),
               ("avatar_type", .str "friend")])) fun info =>
      M.bind (pyIndex info "personality_traits") fun traits =>
      M.bind (pyGet style "formality" (.str "neutral")) fun commStyle =>
      M.bind (pyGet info "avatar_type" (.str "friend")) fun avatar =>
      M.bind (create_persona user_id name
        (some ("对话中出现的角色：" ++ name)) traits commStyle avatar) fun pid =>
      M.bind (create_personas_loop user_id style rest) fun restList =>
      M.pure ({ persona_id := pid, info := info, name := name } :: restList)

/-- `_create_personas` (lines 284–299). -/
def create_personas (user_id : String) (entities : JVal) (_context : String)
    (style : JVal) : M (List NewPersona) :=
  M.bind (pyGet entities "persons" (.arr [])) fun personsJ =>
  M.bind (pyStrList personsJ) fun persons =>
  create_personas_loop user_id style persons

/-- `_update_personas` (lines 301–302). -/
def update_personas (user_id : String) (entities : JVal) :
    M (List PersonaRec) :=
  M.bind (get_personas user_id) fun ps =>
  M.bind (pyGet entities "persons" (.arr [])) fun personsJ =>
  M.bind (pyStrList personsJ) fun persons =>
  M.pure (ps.filter (fun p => persons.contains p.name))

/-- An entry of the `new_memories` result list (line 313). -/
structure NewMemory where
  memory_id : Nat
  topic : JVal
  importance_score : JVal
  entities : JVal
  temporal : JVal

/-- `_create_memories` (lines 305–313).  The source calls
`create_memory_event(user_id, log_id, pad, topic, label, score, [],
entities)` positionally, so the literal `[]` lands in `media_reference`,
the extracted-entities map lands in `tags`, and the `entities` parameter
is left at its `None` default. -/
def create_memories (user_id : String) (log_id : Nat) (text : String)
    (entities : JVal) (pad : JVal) (temporal : JVal) : M (List NewMemory) :=
  M.bind (ask_json ("topic summary of: " ++ text)
    (.obj [("topic", .str "日常对话")])) fun topicJ =>
  M.bind (pyIndex topicJ "topic") fun topic =>
  M.bind (ask_json ("importance score of: " ++ text)
    (.obj [("score", .num 5 1)])) fun scoreJ =>
  M.bind (pyIndex scoreJ "score") fun score =>
  M.bind (pyGet pad "emotion_category" (.obj [])) fun emoCat =>
  M.bind (pyGet emoCat "label" (.str "neutral")) fun label =>
  M.bind (create_memory_event user_id log_id pad topic label score
    (.arr []) entities .null) fun mid =>
  M.pure [{ memory_id := mid, topic := topic, importance_score := score,
            entities := entities, temporal := temporal }]

/-- The fixed default-persona name `小助手` (line 128). -/
def defaultPersonaName : String := "小助手"

/-- `_ensure_default_persona` (lines 316–320): return the first persona of
the user named `小助手`, creating it from `DEFAULT_PERSONA` if absent. -/
def ensure_default_persona (user_id : String) : M Nat :=
  M.bind (get_personas user_id) fun ps =>
  match ps.find? (fun p => p.name == defaultPersonaName) with
  | some p => M.pure p.persona_id
  | none =>
    create_persona user_id defaultPersonaName
      (some "一个友善、耐心的AI助手，专门帮助用户记录和分析情感体验")
      (.arr [.str "友善", .str "耐心", .str "理解", .str "支持"])
      (.str "温和") (.str "friend")

/-- The structured reply of `_get_response_to_interaction` (lines 408–417). -/
structure ReplyResult where
  reply : String
  speaker_id : Nat
  speaker_name : String
  speaker_avatar : JVal
  used_memories : List Nat

/-- `_get_response_to_interaction` (lines 323–417).  When the user has no
personas at all, the source re-creates the default but then evaluates
`not speaker` with `speaker` unbound, an `UnboundLocalError` (modelled as
`nameError`); the pipeline never reaches that branch because the default
persona is ensured first. -/
def get_response_to_interaction (user_id : String) (persona_id : Option Nat)
    (text : String) : M ReplyResult :=
  M.bind (get_personas user_id) fun personas =>
  if personas.isEmpty then
    M.bind (ensure_default_persona user_id) fun _ =>
    M.bind (get_personas user_id) fun _ =>
    M.throw .nameError
  else
    let speakerOpt : Option PersonaRec :=
      match persona_id with
      | some pid => personas.find? (fun p => p.persona_id == pid)
      | none => none
    M.bind (match speakerOpt with
      | some sp => M.pure sp
      | none =>
        match personas with
        | [] => M.throw .indexError
        | p0 :: _ =>
          M.pure ((personas.find?
            (fun p => p.name == defaultPersonaName)).getD p0)) fun speaker =>
    M.bind (pyJoin ", " speaker.personality_traits) fun traitsStr =>
    let persona_desc := "你是一位 " ++ pyStr speaker.avatar_type ++
      " 形象的 AI 助手，名字叫 " ++ speaker.name ++ "。你的性格特征：" ++
      traitsStr ++ "。沟通风格：" ++ pyStr speaker.communication_style ++
      "。请保持一致的口吻。"
    M.bind (get_interaction_logs user_id 5) fun recent_logs =>
    M.bind (mmap (fun lg =>
      M.bind (pyGet lg.raw_input_data "text" (.str "")) fun humanTxt =>
      M.pure ("[" ++ pyStr lg.emotion_label ++ "] 用户: " ++ pyStr humanTxt))
      recent_logs.reverse) fun logs_snippet =>
    M.bind (get_memory_events user_id none 20) fun mems =>
    M.bind (mfilter (fun m => pyGeFloat m.importance_score 7 1) mems)
      fun highMems =>
    let memories := highMems.take 3
    let mem_snippet := memories.map (fun m =>
      "记忆(" ++ pyStr m.linked_topic ++ "): " ++ pyStr m.entities)
    let messages := [persona_desc] ++
      (if mem_snippet.isEmpty then [] else
        ["以下是与用户相关的关键记忆，请在合适时参考但不要直接复述：\n" ++
          String.intercalate "\n" mem_snippet]) ++
      (if logs_snippet.isEmpty then [] else
        ["以下是最近几轮对话摘要：\n" ++ String.intercalate "\n" logs_snippet]) ++
      [text]
    M.bind (chat messages) fun rsp =>
    let reply := pyStrip rsp
    M.bind (match recent_logs with
      | [] => M.pure ()
      | l0 :: _ => save_assistant_reply l0.log_id reply) fun _ =>
    M.bind (increment_persona_interaction speaker.persona_id) fun _ =>
    M.pure { reply := reply, speaker_id := speaker.persona_id,
             speaker_name := speaker.name,
             speaker_avatar := speaker.avatar_type,
             used_memories := memories.map (fun m => m.memory_id) }

/-- The format normalization/validation shared by
`BailianDeepSeekService.image_analysis` (llm_multimodal_service.py lines
532–539) and `EnhancedPersonaSync._analyze_image` (enhanced_persona_sync.py
lines 442–447): aliases `jpe`/`jpg` become `jpeg` and `tif` joins `tiff`;
anything not then found in `[bmp, png, webp, heic]` raises `ValueError`. -/
def normalize_image_format (image_format : String) : Except PyErr String :=
  if (["jpe", "jpg"] : List String).contains image_format then .ok "jpeg"
  else if (["tif", "tiff"] : List String).contains image_format then .ok "tiff"
  else if !(["bmp", "png", "webp", "heic"] : List String).contains
      image_format then
    .error (.valueError ("不支持的图像格式: " ++ image_format))
  else .ok image_format

/-- An image input: the path handed to the pipeline and the base64 encoding
of the file's bytes (the filesystem read is external input here). -/
structure ImageInput where
  path : String
  b64 : String

/-- Python `path.split('.')[-1]`: the suffix after the last `.`, or the
whole path when there is none. -/
def pySplitLastDot (path : String) : String :=
  match pyFindAux '.' path.toList.reverse with
  | some i => String.mk (path.toList.reverse.take i).reverse
  | none => path

/-- `_analyze_image` (lines 419–459): base64-encode the file, take the
format from the path suffix, normalize/validate it, and only then issue
the multimodal request. -/
def analyze_image (img : ImageInput) : M String :=
  let image_base64 := img.b64
  let image_format := pySplitLastDot img.path
  if image_base64 = "" then M.throw (.valueError "图像Base64编码不能为空")
  else
    M.bind (
      match normalize_image_format image_format with
      | .ok f => M.pure f
      | .error e => M.throw e) fun fmt =>
    M.bind (chat_with_image
      ["data:image/" ++ fmt ++ ";base64," ++ image_base64]) fun rsp =>
    M.pure (pyStrip rsp)

/-- The structured result of `process_interaction` (lines 184–193). -/
structure PIResult where
  interaction_log_id : Nat
  pad_analysis : JVal
  entities : JVal
  new_personas : List NewPersona
  updated_personas : List PersonaRec
  new_memories : List NewMemory
  timestamp : Nat
  reply : ReplyResult

/-- The first block of `process_interaction` (lines 158–173): user and
default-persona bootstrap, optional image grounding, emotion analysis, and
the immediate InteractionLog/EmotionAnalysis writes.  Returns the
(possibly image-augmented) text, the PAD analysis dict and the new log id. -/
def pipeline_analysis_phase (user_id : String) (text : String)
    (input_type : String) (image : Option ImageInput) :
    M (String × JVal × Nat) :=
  M.bind (get_user_profile user_id) fun hasProfile =>
  M.bind (if hasProfile then M.pure "" else create_user_profile user_id)
    fun _ =>
  M.bind (ensure_default_persona user_id) fun _ =>
  M.bind (match image with
    | some img =>
      M.bind (analyze_image img) fun ic =>
      M.pure ("我向你提供了一张图片：\n" ++ ic ++
        "\n\n同时我告诉你这段文字：\n" ++ text, some ic)
    | none => M.pure (text, (none : Option String))) fun ti =>
  M.bind (analyze_emotion ti.1) fun pad =>
  M.bind (pyGet pad "pad_values" (.obj [])) fun padValues =>
  M.bind (pyGet pad "emotion_category" (.obj [])) fun emoCat =>
  M.bind (pyGet emoCat "label" (.str "neutral")) fun label =>
  M.bind (log_interaction user_id input_type padValues label none
    (.obj [("text", .str ti.1),
           ("image", match ti.2 with
             | some ic => .str ic
             | none => .null)])) fun log_id =>
  M.bind (pyGet pad "pad_values" (.obj [])) fun padValues2 =>
  M.bind (pyGet pad "emotion_category" (.obj [])) fun emoCat2 =>
  M.bind (pyGet pad "confidence" (.num 5 1)) fun conf =>
  M.bind (pyGet pad "analysis_method" (.str "llm")) fun method =>
  M.bind (save_emotion_analysis log_id padValues2 emoCat2
    (.obj [("confidence", conf)]) method) fun _ =>
  M.pure (ti.1, pad, log_id)

/-- The second block of `process_interaction` (lines 175–181): entity,
style and temporal extraction, persona materialization and memory
creation.  Returns the entities dict and the three result lists. -/
def pipeline_extraction_phase (user_id : String) (text : String)
    (log_id : Nat) (pad : JVal) :
    M (JVal × List NewPersona × List PersonaRec × List NewMemory) :=
  M.bind (extract_entities text) fun entities =>
  M.bind (analyze_style text) fun style =>
  M.bind (extract_temporal text) fun temporal =>
  M.bind (create_personas user_id entities text style) fun new_ps =>
  M.bind (update_personas user_id entities) fun upd_ps =>
  M.bind (create_memories user_id log_id text entities pad temporal)
    fun memories =>
  M.pure (entities, new_ps, upd_ps, memories)

/-- `process_interaction` (lines 150–193), the whole pipeline invocation,
as the two phases above followed by reply synthesis and result assembly. -/
def process_interaction (user_id : String) (text : String)
    (input_type : String) (image : Option ImageInput)
    (persona_id : Option Nat) : M PIResult :=
  M.bind (pipeline_analysis_phase user_id text input_type image) fun a =>
  M.bind (pipeline_extraction_phase user_id a.1 a.2.2 a.2.1) fun b =>
  M.bind (get_response_to_interaction user_id persona_id a.1) fun reply =>
  M.bind now fun ts =>
  M.pure { interaction_log_id := a.2.2, pad_analysis := a.2.1,
           entities := b.1, new_personas := b.2.1,
           updated_personas := b.2.2.1, new_memories := b.2.2.2,
           timestamp := ts, reply := reply }

/-- The persona row that `_ensure_default_persona` creates from
`DEFAULT_PERSONA` (lines 127–133), given its fresh id. -/
def defaultPersonaRow (id : Nat) (u : String) : PersonaRec :=
  ⟨id, u, "小助手", "一个友善、耐心的AI助手，专门帮助用户记录和分析情感体验",
   .arr [.str "友善", .str "耐心", .str "理解", .str "支持"], .str "温和", 0,
   .str "friend"⟩

/-! #### Concrete model-response scenarios used by the closed-run theorems -/

/-- An emotion response whose values ignore the documented ranges:
pleasure 1.5, intensity 2.0 and a label outside the three-way enum. -/
def wildEmotionJson : String :=
  "\x7b\"pad_values\": \x7b\"pleasure\": 1.5, \"arousal\": 0.5, \"dominance\": 0.5\x7d, \"emotion_category\": \x7b\"label\": \"furious\", \"emotion\": \"anger\", \"intensity\": 2.0\x7d, \"confidence\": 0.9\x7d"

/-- Its parse. -/
def wildPadVals : JVal := .obj [("pleasure", .num 15 1), ("arousal", .num 5 1),
  ("dominance", .num 5 1)]

def wildEmoCat : JVal := .obj [("label", .str "furious"),
  ("emotion", .str "anger"), ("intensity", .num 20 1)]

def wildPadJ : JVal := .obj [("pad_values", wildPadVals),
  ("emotion_category", wildEmoCat), ("confidence", .num 9 1)]

/-- Scenario: every response is well-formed but the emotion values are out
of range and the importance score is 2.0. -/
def oracleWildValues : Nat → Except Unit String := fun n =>
  if n = 0 then .ok wildEmotionJson
  else if n = 4 then .ok "\x7b\"topic\": \"t\"\x7d"
  else if n = 5 then .ok "\x7b\"score\": 2.0\x7d"
  else if n = 6 then .ok "hello"
  else .ok "\x7b\x7d"

/-- Scenario: the completion endpoint is unreachable for the emotion call
only; every later call succeeds. -/
def oracleEmotionDown : Nat → Except Unit String := fun n =>
  if n = 0 then .error ()
  else if n = 4 then .ok "\x7b\"topic\": \"t\"\x7d"
  else if n = 5 then .ok "\x7b\"score\": 0.5\x7d"
  else if n = 6 then .ok "hello"
  else .ok "\x7b\x7d"

/-- Scenario: the endpoint is unreachable for every call. -/
def oracleAllDown : Nat → Except Unit String := fun _ => .error ()

/-- Scenario: every extraction call fails at transport level and only the
final reply call gets through. -/
def oracleOnlyReplyUp : Nat → Except Unit String := fun n =>
  if n = 6 then .ok "hello" else .error ()

/-- Scenario: a well-formed happy-path conversation mentioning Alice. -/
def aliceEntitiesJson : String :=
  "\x7b\"persons\": [\"Alice\"], \"locations\": [\"Paris\"], \"time_expressions\": [], \"events\": [], \"organizations\": []\x7d"

/-- Its parse. -/
def aliceEntities : JVal := .obj [("persons", .arr [.str "Alice"]),
  ("locations", .arr [.str "Paris"]), ("time_expressions", .arr []),
  ("events", .arr []), ("organizations", .arr [])]

def happyEmotionJson : String :=
  "\x7b\"pad_values\": \x7b\"pleasure\": 0.9, \"arousal\": 0.7, \"dominance\": 0.6\x7d, \"emotion_category\": \x7b\"label\": \"positive\", \"emotion\": \"happy\", \"intensity\": 0.8\x7d, \"confidence\": 0.9\x7d"

def happyPadVals : JVal := .obj [("pleasure", .num 9 1), ("arousal", .num 7 1),
  ("dominance", .num 6 1)]

def happyEmoCat : JVal := .obj [("label", .str "positive"),
  ("emotion", .str "happy"), ("intensity", .num 8 1)]

def happyPadJ : JVal := .obj [("pad_values", happyPadVals),
  ("emotion_category", happyEmoCat), ("confidence", .num 9 1)]

def oracleAlice : Nat → Except Unit String := fun n =>
  if n = 0 then .ok happyEmotionJson
  else if n = 1 then .ok aliceEntitiesJson
  else if n = 2 then .ok "\x7b\"formality\": \"casual\"\x7d"
  else if n = 4 then .ok "\x7b\"personality_traits\": [\"kind\"], \"avatar_type\": \"friend\"\x7d"
  else if n = 5 then .ok "\x7b\"topic\": \"meeting\"\x7d"
  else if n = 6 then .ok "\x7b\"score\": 0.8\x7d"
  else if n = 7 then .ok "hi!"
  else .ok "\x7b\x7d"

/-- Scenario: the emotion response is the string `r` (in the theorems, one
that fails to parse); all later responses are benign. -/
def oracleBadEmotion (r : String) : Nat → Except Unit String := fun n =>
  if n = 0 then .ok r
  else if n = 4 then .ok "\x7b\"topic\": \"t\"\x7d"
  else if n = 5 then .ok "\x7b\"score\": 0.5\x7d"
  else if n = 6 then .ok "hello"
  else .ok "\x7b\x7d"

/-- The empty store with a given oracle. -/
def initCtx (oracle : Nat → Except Unit String) : Ctx :=
  { users := [], logs := [], memories := [], personas := [], analyses := [],
    time := 0, nextId := 0, callIdx := 0, oracle := oracle }

end RIS

namespace RIS

/-! ### `EmotionReportGenerator` (emotion_report_generator.py)

The two aggregate computations the claims touch are embedded over their own
input types: a daily trajectory (an assoc list standing for the
`date → ratios` dict) and a window of memory rows.  The Python floats are
exact rationals here. -/

/-- One value of the `daily_trajectory` dict (lines 279–284). -/
structure DayRatio where
  positive_ratio : ℚ
  negative_ratio : ℚ
  neutral_ratio : ℚ
  total_interactions : Nat

/-- The result dict of `_calculate_emotion_trend` (lines 723–745). -/
inductive TrendResult where
  | noData
  | insufficientData
  | result (positive_trend : ℚ) (negative_trend : ℚ)
      (overall_trend : String) (trend_strength : ℚ)

/-- The `overall_trend` field, when present. -/
def TrendResult.overall : TrendResult → Option String
  | .result _ _ o _ => some o
  | _ => none

/-- Lexicographic comparison of character lists (Python string `<=` is
code-point lexicographic). -/
def charListLe : List Char → List Char → Bool
  | [], _ => true
  | _ :: _, [] => false
  | a :: as, b :: bs =>
    if a < b then true else if b < a then false else charListLe as bs

/-- Python `s1 <= s2` on strings, as `sorted()` uses it. -/
def pyStrLe (a b : String) : Bool := charListLe a.toList b.toList

/-- `Σ x` over the regression abscissae `0, …, n−1`. -/
def sumIdx (n : Nat) : ℚ := ((List.range n).map (fun i : Nat => (i : ℚ))).sum

/-- `Σ x²` over the regression abscissae `0, …, n−1`. -/
def sumIdxSq (n : Nat) : ℚ :=
  ((List.range n).map (fun i : Nat => (i : ℚ) * (i : ℚ))).sum

/-- `Σ x·y` of the series against its indices. -/
def sumXY (ys : List ℚ) : ℚ :=
  (List.zipWith (fun x y => x * y)
    ((List.range ys.length).map (fun i : Nat => (i : ℚ))) ys).sum

/-- `np.polyfit(range(n), ys, 1)[0]`: the ordinary-least-squares slope of
`ys` against the indices `0, …, n−1`. -/
def olsSlope (ys : List ℚ) : ℚ :=
  ((ys.length : ℚ) * sumXY ys - sumIdx ys.length * ys.sum) /
    ((ys.length : ℚ) * sumIdxSq ys.length -
      sumIdx ys.length * sumIdx ys.length)

/-- `_calculate_emotion_trend` (lines 723–745): sort the dates, require at
least two, fit the positive- and negative-ratio series, and label by the
±0.01 thresholds on the positive slope. -/
def calculate_emotion_trend (trajectory : List (String × DayRatio)) :
    TrendResult :=
  if trajectory.isEmpty then .noData
  else
    let dates := (trajectory.map Prod.fst).insertionSort
      (fun a b => pyStrLe a b = true)
    if dates.length < 2 then .insufficientData
    else
      let lookupRatio (d : String) : DayRatio :=
        ((trajectory.find? (fun kv => kv.1 == d)).map Prod.snd).getD
          ⟨0, 0, 0, 0⟩
      let positive_values := dates.map (fun d => (lookupRatio d).positive_ratio)
      let negative_values := dates.map (fun d => (lookupRatio d).negative_ratio)
      let positive_trend := olsSlope positive_values
      let negative_trend := olsSlope negative_values
      .result positive_trend negative_trend
        (if positive_trend > 1/100 then "improving"
         else if positive_trend < -(1/100) then "declining"
         else "stable")
        |positive_trend|

/-- The `emotion_counts` dict of `_generate_summary` (line 212), in its
insertion order. -/
def emotionCountsInit : List (String × Nat) :=
  [("positive", 0), ("negative", 0), ("neutral", 0)]

/-- One step of the tally loop `emotion_counts[memory_type] += 1`
(lines 213–215): a type outside the dict's keys raises `KeyError`
(`TypeError` for an unhashable value). -/
def bumpCount (counts : List (String × Nat)) (ty : JVal) :
    Except PyErr (List (String × Nat)) :=
  match ty with
  | .str s =>
    if (counts.find? (fun kv => kv.1 == s)).isSome then
      .ok (counts.map (fun kv => if kv.1 == s then (kv.1, kv.2 + 1) else kv))
    else .error (.keyError s)
  | .arr _ => .error .typeError
  | .obj _ => .error .typeError
  | v => .error (.keyError (pyStr v))

/-- Python `max(d, key=d.get)`: the first key of maximal value in the
dict's iteration order (`max` keeps the incumbent on ties). -/
def pyMaxByVal (l : List (String × Nat)) : String :=
  match l with
  | [] => ""
  | kv :: rest =>
    (rest.foldl (fun best x => if x.2 > best.2 then x else best) kv).1

/-- The dominant-emotion computation of `_generate_summary`
(lines 211–218) on a window of memories.  The guard `if emotion_counts:`
is always true (the dict always holds its three keys), so the initial
`'neutral'` (line 192) is always overwritten. -/
def generate_summary_dominant (memories : List MemoryRec) :
    Except PyErr String :=
  match (memories.map (fun m => m.memory_type)).foldlM bumpCount
      emotionCountsInit with
  | .ok counts => .ok (pyMaxByVal counts)
  | .error e => .error e

/-- Whether a JSON value is the string `s` (used to state counts). -/
def jIsStr (t : JVal) (s : String) : Bool :=
  match t with
  | .str t' => t' == s
  | _ => false

/-- Whether a memory's type is the string `s` (used to state counts). -/
def isTypeStr (m : MemoryRec) (s : String) : Bool :=
  jIsStr m.memory_type s

/-- Refinement definition, following the spec's words only: the argmax of
the three counts with ties broken in the order positive, negative,
neutral. -/
def specDominantEmotion (pc nc uc : Nat) : String :=
  if pc ≥ nc ∧ pc ≥ uc then "positive"
  else if nc ≥ uc then "negative"
  else "neutral"

end RIS

namespace RIS

/-! ### Sequential invocations and the persona-store invariant -/

/-- One HTTP-level invocation of `process_interaction`. -/
structure Invocation where
  user_id : String
  text : String
  input_type : String
  image : Option ImageInput
  persona_id : Option Nat

/-- Sequential invocations (no concurrency): each call runs on the store
left by the previous one, whether that call returned or raised — sqlite
commits per data-model call, so the store survives an exception. -/
def runSeq : List Invocation → Ctx → Ctx
  | [], s => s
  | i :: rest, s =>
    runSeq rest (process_interaction i.user_id i.text i.input_type
      i.image i.persona_id s).2

/-- The names of a user's personas among the rows `l`, in rowid order. -/
def namesOf (l : List PersonaRec) (u : String) : List String :=
  (l.filter (fun p => p.user_id == u)).map (fun p => p.name)

/-- The names of a user's personas in the store. -/
def personaNames (s : Ctx) (u : String) : List String :=
  namesOf s.personas u

/-- The persona-store invariant: per user, persona names are pairwise
distinct, and a user who has any persona at all has the default one. -/
def PersonaInv (s : Ctx) : Prop :=
  ∀ u : String, (personaNames s u).Nodup ∧
    (personaNames s u ≠ [] → defaultPersonaName ∈ personaNames s u)

/-- The operation never changes any user's persona-name list. -/
def PNames {α : Type} (m : M α) : Prop :=
  ∀ (s : Ctx) (u : String),
    namesOf (m s).2.personas u = namesOf s.personas u

/-- A reply-stage scenario: the endpoint answers every call. -/
def oracleReplyOnly : Nat → Except Unit String := fun _ => .ok "yo"

/-- A store with one prior interaction log for the user. -/
def replyLog : LogRec := ⟨7, "u1", 9, "topic", .obj [], .str "neutral", "",
  .obj [("text", .str "hey")], []⟩

/-- The store on which the reply stage is exercised in isolation. -/
def replyCtx : Ctx :=
  { users := ["u1"], logs := [replyLog], memories := [],
    personas := [defaultPersonaRow 3 "u1"], analyses := [],
    time := 10, nextId := 10, callIdx := 0, oracle := oracleReplyOnly }

end RIS

namespace RIS

/-! ### Claim C2: the best-effort JSON extraction -/

theorem pyFindAux_get {c : Char} :
    ∀ (l : List Char) (i : Nat), pyFindAux c l = some i → l[i]? = some c := by
  intro l
  induction l with
  | nil => intro i h; simp [pyFindAux] at h
  | cons x xs ih =>
    intro i h
    by_cases hx : x = c
    · simp [pyFindAux, hx] at h
      subst hx
      simp [← h]
    · simp [pyFindAux, hx] at h
      obtain ⟨a, ha, rfl⟩ := h
      simpa using ih a ha

theorem pyIdxNorm_nonneg (n : Nat) (i : Int) : 0 ≤ pyIdxNorm n i := by
  unfold pyIdxNorm
  split <;> omega

theorem pySlice_eq_nil (l : List Char) (start stop : Int)
    (h : (pyIdxNorm l.length stop).toNat ≤ (pyIdxNorm l.length start).toNat) :
    pySlice l start stop = [] := by
  unfold pySlice
  rw [Nat.sub_eq_zero_of_le h]
  simp

theorem pySlice_neg_one_full (l : List Char) (_hne : l.length ≠ 0) :
    pySlice l (-1) (l.length : Int) = l.drop (l.length - 1) := by
  unfold pySlice
  have h2 : pyIdxNorm l.length (-1) = ((l.length - 1 : Nat) : Int) := by
    unfold pyIdxNorm
    rw [if_pos (by omega)]
    omega
  have h3 : pyIdxNorm l.length (l.length : Int) = (l.length : Int) := by
    unfold pyIdxNorm
    rw [if_neg (by omega)]
    omega
  rw [h2, h3]
  simp only [Int.toNat_natCast]
  apply List.take_of_length_le
  simp [List.length_drop]

theorem drop_last_eq (l : List Char) (x : Char)
    (h : l[l.length - 1]? = some x) (hne : l.length ≠ 0) :
    l.drop (l.length - 1) = [x] := by
  have hl : (l.drop (l.length - 1)).length = 1 := by
    simp [List.length_drop]
    omega
  obtain ⟨a, ha⟩ := List.length_eq_one.mp hl
  have hg : (l.drop (l.length - 1))[0]? = l[l.length - 1 + 0]? :=
    List.getElem?_drop l (l.length - 1) 0
  rw [ha] at hg
  simp at hg
  rw [hg.symm] at h
  simp at h
  rw [ha, h]

theorem parseJson_nil : parseJson [] = none := rfl

theorem parseJson_close_brace : parseJson ['}'] = none := rfl

/-- C2, amended behaviour of the extraction step of `_ask_json`:
(1) with no `{` strictly before a `}` (hence no balanced `{...}`
substring) the fallback is returned; (2) when the slice from the first `{`
to the last `}` parses, the parsed value is returned; (3) when that slice
does not parse, the fallback is returned even if a balanced `{...}`
substring occurs elsewhere in the text.  In this model the function is
total, so it never raises. -/
theorem extract_json_spec (txt : List Char) (fb : JVal) :
    (¬ hasBracePair txt → extractJson txt fb = fb) ∧
    (∀ v, parseJson (pySlice txt (pyFind txt '{') (pyRFind txt '}' + 1)) =
        some v → extractJson txt fb = v) ∧
    (parseJson (pySlice txt (pyFind txt '{') (pyRFind txt '}' + 1)) =
        none → extractJson txt fb = fb) := by
  refine ⟨?_, ?_, ?_⟩
  · intro hno
    cases hf : pyFindAux '{' txt with
    | none =>
      cases hr : pyFindAux '}' txt.reverse with
      | none =>
        have e1 : pyFind txt '{' = -1 := by simp [pyFind, hf]
        have e2 : pyRFind txt '}' + 1 = 0 := by simp [pyRFind, hr]
        have hsl : pySlice txt (-1) 0 = [] :=
          pySlice_eq_nil txt (-1) 0
            (by unfold pyIdxNorm; split_ifs <;> omega)
        simp [extractJson, e1, e2, hsl, parseJson_nil]
      | some ir =>
        have hrev := pyFindAux_get txt.reverse ir hr
        have hirlt : ir < txt.length := by
          have := (List.getElem?_eq_some.mp hrev).1
          simpa using this
        have hj : txt[txt.length - 1 - ir]? = some '}' := by
          rw [List.getElem?_reverse (by simpa using hirlt)] at hrev
          exact hrev
        have e1 : pyFind txt '{' = -1 := by simp [pyFind, hf]
        by_cases hir : ir = 0
        · subst hir
          have hlen : txt.length ≠ 0 := by omega
          have e2 : pyRFind txt '}' + 1 = (txt.length : Int) := by
            simp [pyRFind, hr]
          have hsl : pySlice txt (-1) (txt.length : Int) =
              txt.drop (txt.length - 1) := pySlice_neg_one_full txt hlen
          have hdr : txt.drop (txt.length - 1) = ['}'] :=
            drop_last_eq txt '}' (by simpa using hj) hlen
          simp [extractJson, e1, e2, hsl, hdr, parseJson_close_brace]
        · have e2 : pyRFind txt '}' + 1 =
              (txt.length : Int) - 1 - (ir : Int) + 1 := by
            simp [pyRFind, hr]
          have hsl : pySlice txt (-1)
              ((txt.length : Int) - 1 - (ir : Int) + 1) = [] :=
            pySlice_eq_nil txt _ _
              (by unfold pyIdxNorm; split_ifs <;> omega)
          simp [extractJson, e1, e2, hsl, parseJson_nil]
    | some i0 =>
      have hi0 := pyFindAux_get txt i0 hf
      have hi0lt : i0 < txt.length := (List.getElem?_eq_some.mp hi0).1
      have e1 : pyFind txt '{' = (i0 : Int) := by simp [pyFind, hf]
      cases hr : pyFindAux '}' txt.reverse with
      | none =>
        have e2 : pyRFind txt '}' + 1 = 0 := by simp [pyRFind, hr]
        have hsl : pySlice txt (i0 : Int) 0 = [] :=
          pySlice_eq_nil txt _ _
            (by unfold pyIdxNorm; split_ifs <;> omega)
        simp [extractJson, e1, e2, hsl, parseJson_nil]
      | some ir =>
        have hrev := pyFindAux_get txt.reverse ir hr
        have hirlt : ir < txt.length := by
          have := (List.getElem?_eq_some.mp hrev).1
          simpa using this
        have hj : txt[txt.length - 1 - ir]? = some '}' := by
          rw [List.getElem?_reverse (by simpa using hirlt)] at hrev
          exact hrev
        have hne : txt.length - 1 - ir ≠ i0 := by
          intro hcontra
          rw [hcontra, hi0] at hj
          simp at hj
        have hlt : txt.length - 1 - ir < i0 := by
          rcases Nat.lt_or_ge (txt.length - 1 - ir) i0 with h | h
          · exact h
          · exfalso
            have hlt' : i0 < txt.length - 1 - ir := by omega
            exact hno ⟨i0, txt.length - 1 - ir, hlt', hi0, hj⟩
        have e2 : pyRFind txt '}' + 1 =
            (txt.length : Int) - 1 - (ir : Int) + 1 := by
          simp [pyRFind, hr]
        have hsl : pySlice txt (i0 : Int)
            ((txt.length : Int) - 1 - (ir : Int) + 1) = [] :=
          pySlice_eq_nil txt _ _
            (by unfold pyIdxNorm; split_ifs <;> omega)
        simp [extractJson, e1, e2, hsl, parseJson_nil]
  · intro v hv
    unfold extractJson
    rw [hv]
  · intro hv
    unfold extractJson
    rw [hv]

end RIS

namespace RIS

/-- C2 counterexample: the text `{ {"a": 1}` contains the balanced,
parseable substring `{"a": 1}`, yet the extraction returns the fallback,
because the slice from the first `{` to the last `}` does not parse. -/
theorem extract_json_balanced_counterexample :
    extractJson "\x7b \x7b\"a\": 1\x7d".toList (.str "FB") = .str "FB" ∧
    parseJson "\x7b\"a\": 1\x7d".toList = some (.obj [("a", .num 1 0)]) ∧
    "\x7b\"a\": 1\x7d".toList <:+: "\x7b \x7b\"a\": 1\x7d".toList :=
  ⟨rfl, rfl, ⟨"\x7b ".toList, [], rfl⟩⟩

/-- Witness for `extract_json_spec`: each implication discharged at a
concrete input. -/
theorem extract_json_spec_witness :
    (¬ hasBracePair "plain text".toList ∧
      extractJson "plain text".toList (.num 1 0) = .num 1 0) ∧
    extractJson "x\x7b\"a\": 2\x7dy".toList .null = .obj [("a", .num 2 0)] ∧
    extractJson "\x7bbad".toList (.num 3 0) = .num 3 0 := by
  have hno : ¬ hasBracePair "plain text".toList := by
    rintro ⟨i, j, hij, hi, hj⟩
    have hmem : '{' ∈ "plain text".toList := by
      obtain ⟨hl, he⟩ := List.getElem?_eq_some.mp hi
      rw [← he]
      exact List.getElem_mem hl
    exact absurd hmem (by decide)
  refine ⟨⟨hno, (extract_json_spec _ _).1 hno⟩, ?_, ?_⟩
  · exact (extract_json_spec _ _).2.1 _ rfl
  · exact (extract_json_spec _ _).2.2 rfl

/-! ### Claim C4: image-format validation -/

end RIS

namespace RIS

/-- C4: what the image-format validation actually accepts.  The accepted
set is `jpe, jpg, tif, tiff, bmp, png, webp, heic` — the canonical name
`jpeg` itself is rejected (the first alias list omits it, unlike the
`tif`/`tiff` pair), contradicting the allow-list `{jpeg, png, bmp, webp,
heic, tiff}` after alias normalization; the rejection happens before any
`chat_with_image` call (the state, including the oracle call counter, is
untouched). -/
theorem image_format_allowlist :
    (∀ fmt : String, (normalize_image_format fmt).isOk = true ↔
      fmt ∈ (["jpe", "jpg", "tif", "tiff", "bmp", "png", "webp", "heic"] :
        List String)) ∧
    normalize_image_format "jpeg" =
      .error (.valueError ("不支持的图像格式: " ++ "jpeg")) ∧
    (∀ s : Ctx, analyze_image ⟨"photo.jpeg", "IMGDATA"⟩ s =
      (.error (.valueError ("不支持的图像格式: " ++ "jpeg")), s)) := by
  refine ⟨?_, rfl, fun s => rfl⟩
  intro fmt
  by_cases h : fmt ∈ (["jpe", "jpg", "tif", "tiff", "bmp", "png", "webp",
      "heic"] : List String)
  · simp only [List.mem_cons, List.not_mem_nil, or_false] at h
    rcases h with rfl | rfl | rfl | rfl | rfl | rfl | rfl | rfl <;> decide
  · constructor
    · intro hok
      exfalso
      simp only [List.mem_cons, List.not_mem_nil, or_false] at h
      push_neg at h
      obtain ⟨h1, h2, h3, h4, h5, h6, h7, h8⟩ := h
      simp [normalize_image_format, h1, h2, h3, h4, h5, h6, h7, h8,
        Except.isOk, Except.toBool] at hok
    · intro hmem
      exact absurd hmem h

end RIS

namespace RIS

/-! ### Claim C10: dominant emotion of the period-report summary -/

theorem tally_ok :
    ∀ (tys : List JVal) (a b c : Nat),
    (∀ t ∈ tys, t = .str "positive" ∨ t = .str "negative" ∨
      t = .str "neutral") →
    tys.foldlM bumpCount [("positive", a), ("negative", b), ("neutral", c)] =
      .ok [("positive", a + tys.countP (fun t => jIsStr t "positive")),
           ("negative", b + tys.countP (fun t => jIsStr t "negative")),
           ("neutral", c + tys.countP (fun t => jIsStr t "neutral"))] := by
  intro tys
  induction tys with
  | nil => intro a b c _; rfl
  | cons t ts ih =>
    intro a b c h
    have ht := h t (by simp)
    have hts : ∀ t' ∈ ts, t' = .str "positive" ∨ t' = .str "negative" ∨
        t' = .str "neutral" := fun t' h' => h t' (by simp [h'])
    rw [List.foldlM_cons]
    rcases ht with rfl | rfl | rfl
    · have hb : bumpCount [("positive", a), ("negative", b), ("neutral", c)]
          (JVal.str "positive") = Except.ok
            [("positive", a + 1), ("negative", b), ("neutral", c)] := by
        simp [bumpCount]
      rw [hb]
      have hbind : (Except.ok
          [("positive", a + 1), ("negative", b), ("neutral", c)] >>=
          fun init => List.foldlM bumpCount init ts) =
          List.foldlM bumpCount
            [("positive", a + 1), ("negative", b), ("neutral", c)] ts := rfl
      rw [hbind, ih _ _ _ hts]
      simp [List.countP_cons, jIsStr, Nat.add_assoc, Nat.add_comm,
        Nat.add_left_comm]
    · have hb : bumpCount [("positive", a), ("negative", b), ("neutral", c)]
          (JVal.str "negative") = Except.ok
            [("positive", a), ("negative", b + 1), ("neutral", c)] := by
        simp [bumpCount]
      rw [hb]
      have hbind : (Except.ok
          [("positive", a), ("negative", b + 1), ("neutral", c)] >>=
          fun init => List.foldlM bumpCount init ts) =
          List.foldlM bumpCount
            [("positive", a), ("negative", b + 1), ("neutral", c)] ts := rfl
      rw [hbind, ih _ _ _ hts]
      simp [List.countP_cons, jIsStr, Nat.add_assoc, Nat.add_comm,
        Nat.add_left_comm]
    · have hb : bumpCount [("positive", a), ("negative", b), ("neutral", c)]
          (JVal.str "neutral") = Except.ok
            [("positive", a), ("negative", b), ("neutral", c + 1)] := by
        simp [bumpCount]
      rw [hb]
      have hbind : (Except.ok
          [("positive", a), ("negative", b), ("neutral", c + 1)] >>=
          fun init => List.foldlM bumpCount init ts) =
          List.foldlM bumpCount
            [("positive", a), ("negative", b), ("neutral", c + 1)] ts := rfl
      rw [hbind, ih _ _ _ hts]
      simp [List.countP_cons, jIsStr, Nat.add_assoc, Nat.add_comm,
        Nat.add_left_comm]

theorem pyMaxByVal_three (pc nc uc : Nat) :
    pyMaxByVal [("positive", pc), ("negative", nc), ("neutral", uc)] =
      specDominantEmotion pc nc uc := by
  unfold pyMaxByVal specDominantEmotion
  simp only [List.foldl]
  split_ifs <;> first | rfl | (exfalso; omega)

/-- C10: over any window whose memory types lie in the three-way enum, the
summary's dominant emotion is the argmax of the positive/negative/neutral
counts with ties broken in the fixed order positive, negative, neutral
(`max` keeps the incumbent on ties and the dict iterates in insertion
order); in particular an empty window reports "positive". -/
theorem dominant_emotion_spec (memories : List MemoryRec)
    (h : ∀ m ∈ memories, m.memory_type = .str "positive" ∨
      m.memory_type = .str "negative" ∨ m.memory_type = .str "neutral") :
    generate_summary_dominant memories =
      .ok (specDominantEmotion
        (memories.countP (fun m => isTypeStr m "positive"))
        (memories.countP (fun m => isTypeStr m "negative"))
        (memories.countP (fun m => isTypeStr m "neutral"))) ∧
    generate_summary_dominant [] = .ok "positive" := by
  constructor
  · unfold generate_summary_dominant emotionCountsInit
    have h' : ∀ t ∈ memories.map (fun m => m.memory_type),
        t = .str "positive" ∨ t = .str "negative" ∨ t = .str "neutral" := by
      intro t ht
      obtain ⟨m, hm, rfl⟩ := List.mem_map.mp ht
      exact h m hm
    rw [tally_ok _ 0 0 0 h']
    have hc : ∀ s : String,
        (memories.map (fun m => m.memory_type)).countP
            (fun t => jIsStr t s) =
          memories.countP (fun m => isTypeStr m s) := by
      intro s
      rw [List.countP_map]
      rfl
    simp only [hc, Nat.zero_add]
    rw [pyMaxByVal_three]
  · rfl

/-- Witness for `dominant_emotion_spec` at a concrete window: two negative
memories against one positive give "negative". -/
theorem dominant_emotion_spec_witness :
    generate_summary_dominant
      [⟨0, "u", 0, .str "", .null, .str "", .arr [], .str "negative",
        .num 5 1, 0, .arr [], .obj []⟩,
       ⟨1, "u", 0, .str "", .null, .str "", .arr [], .str "negative",
        .num 5 1, 1, .arr [], .obj []⟩,
       ⟨2, "u", 0, .str "", .null, .str "", .arr [], .str "positive",
        .num 5 1, 2, .arr [], .obj []⟩] = .ok "negative" := by
  have h := dominant_emotion_spec
    [⟨0, "u", 0, .str "", .null, .str "", .arr [], .str "negative",
      .num 5 1, 0, .arr [], .obj []⟩,
     ⟨1, "u", 0, .str "", .null, .str "", .arr [], .str "negative",
      .num 5 1, 1, .arr [], .obj []⟩,
     ⟨2, "u", 0, .str "", .null, .str "", .arr [], .str "positive",
      .num 5 1, 2, .arr [], .obj []⟩]
    (by intro m hm
        simp only [List.mem_cons, List.not_mem_nil, or_false] at hm
        rcases hm with rfl | rfl | rfl
        · right; left; rfl
        · right; left; rfl
        · left; rfl)
  rw [h.1]
  rfl

end RIS

namespace RIS

/-! ### Claim C7: trend labels of the daily trajectory -/

theorem zipWith_mul_replicate (xs : List ℚ) :
    ∀ (n : Nat) (c : ℚ), xs.length = n →
    List.zipWith (fun x y => x * y) xs (List.replicate n c) =
      xs.map (fun x => x * c) := by
  induction xs with
  | nil => intro n c h; subst h; rfl
  | cons x xs ih =>
    intro n c h
    subst h
    simp only [List.length_cons, List.replicate_succ, List.zipWith_cons_cons,
      List.map_cons]
    rw [ih xs.length c rfl]

theorem sum_map_mul (xs : List ℚ) (c : ℚ) :
    (xs.map (fun x => x * c)).sum = xs.sum * c := by
  induction xs with
  | nil => simp
  | cons x xs ih =>
    simp [ih]
    ring

theorem sumXY_replicate (n : Nat) (c : ℚ) :
    sumXY (List.replicate n c) = sumIdx n * c := by
  unfold sumXY sumIdx
  simp only [List.length_replicate]
  rw [zipWith_mul_replicate _ n c (by rw [List.length_map, List.length_range]), sum_map_mul]

theorem olsSlope_replicate (n : Nat) (c : ℚ) :
    olsSlope (List.replicate n c) = 0 := by
  unfold olsSlope
  simp only [List.length_replicate, sumXY_replicate, List.sum_replicate,
    nsmul_eq_mul]
  have hz : ((n : ℚ) * (sumIdx n * c) - sumIdx n * ((n : ℚ) * c)) = 0 := by
    ring
  rw [hz, zero_div]

theorem find?_map_keys (g : DayRatio → ℚ) :
    ∀ (traj : List (String × DayRatio)),
    (traj.map Prod.fst).Nodup →
    (traj.map Prod.fst).map (fun d =>
      g (((traj.find? (fun kv => kv.1 == d)).map Prod.snd).getD
        ⟨0, 0, 0, 0⟩)) = traj.map (fun kv => g kv.2) := by
  intro traj
  induction traj with
  | nil => intro _; rfl
  | cons kv rest ih =>
    intro hnd
    obtain ⟨k, v⟩ := kv
    have hnd' : (k :: rest.map Prod.fst).Nodup := by simpa using hnd
    have hcons := List.nodup_cons.mp hnd'
    simp only [List.map_cons]
    congr 1
    · have hk : (((k, v) :: rest).find? (fun kv => kv.1 == k)) =
          some (k, v) := by
        simp [List.find?]
      rw [hk]
      rfl
    · rw [← ih hcons.2]
      apply List.map_congr_left
      intro d hd
      have hne : ((k, v).1 == d) = false := by
        simp only [beq_eq_false_iff_ne, ne_eq]
        rintro rfl
        exact hcons.1 hd
      simp only [List.find?]
      rw [hne]

end RIS

namespace RIS

/-- C7, amended: with at least two distinct (strictly ascending) dates, the
overall trend label is driven by the ±0.01 thresholds on the fitted slope
of the positive ratios — above 0.01 it is "improving", below −0.01 it is
"declining", and a constant ratio series (whose slope is 0) is labelled
"stable".  A strictly increasing series is only "improving" when its slope
clears the 0.01 threshold. -/
theorem emotion_trend_labels (traj : List (String × DayRatio))
    (h2 : 2 ≤ traj.length)
    (hsorted : traj.Pairwise (fun a b => pyStrLe a.1 b.1 = true ∧
      a.1 ≠ b.1)) :
    (olsSlope (traj.map (fun kv => kv.2.positive_ratio)) > 1/100 →
      (calculate_emotion_trend traj).overall = some "improving") ∧
    (olsSlope (traj.map (fun kv => kv.2.positive_ratio)) < -(1/100) →
      (calculate_emotion_trend traj).overall = some "declining") ∧
    (∀ c : ℚ, traj.map (fun kv => kv.2.positive_ratio) =
        List.replicate traj.length c →
      (calculate_emotion_trend traj).overall = some "stable") := by
  have hEmpty : traj.isEmpty = false := by
    cases traj with
    | nil => simp at h2
    | cons a l => rfl
  have hkeysorted : (traj.map Prod.fst).Pairwise
      (fun a b => pyStrLe a b = true) := by
    rw [List.pairwise_map]
    exact hsorted.imp (fun h => h.1)
  have hnodup : (traj.map Prod.fst).Nodup := by
    unfold List.Nodup
    rw [List.pairwise_map]
    exact hsorted.imp (fun h => h.2)
  have hsorteq : (traj.map Prod.fst).insertionSort
      (fun a b => pyStrLe a b = true) = traj.map Prod.fst :=
    List.Sorted.insertionSort_eq hkeysorted
  have hlen2 : ¬ ((traj.map Prod.fst).length < 2) := by
    rw [List.length_map]
    omega
  have hpos := find?_map_keys DayRatio.positive_ratio traj hnodup
  have hneg := find?_map_keys DayRatio.negative_ratio traj hnodup
  simp only [calculate_emotion_trend, hEmpty, Bool.false_eq_true, if_false,
    hsorteq, hlen2, hpos, hneg, TrendResult.overall]
  refine ⟨?_, ?_, ?_⟩
  · intro h
    rw [if_pos h]
  · intro h
    rw [if_neg (by linarith), if_pos h]
  · intro c hc
    rw [hc, List.length_map] at *
    rw [olsSlope_replicate]
    norm_num

end RIS

namespace RIS

/-- C7 counterexample: a strictly increasing positive-ratio series
(0.5 then 0.505, two distinct dates) whose fitted slope 0.005 does not
clear the 0.01 threshold is labelled "stable", not "improving". -/
theorem emotion_trend_strict_increase_counterexample :
    ((1 : ℚ)/2 < 101/200) ∧
    (calculate_emotion_trend
      [("2024-01-01", ⟨1/2, 1/2, 0, 2⟩),
       ("2024-01-02", ⟨101/200, 99/200, 0, 200⟩)]).overall =
      some "stable" := by
  constructor
  · norm_num
  · have hsort : (["2024-01-01", "2024-01-02"] : List String).insertionSort
        (fun a b => pyStrLe a b = true) = ["2024-01-01", "2024-01-02"] := by
      simp [List.insertionSort, List.orderedInsert]
      decide
    have hslope : olsSlope [(1 : ℚ)/2, 101/200] = 1/200 := by
      unfold olsSlope sumXY sumIdx sumIdxSq
      norm_num [List.range_succ]
    have hneq : ("2024-01-01" == "2024-01-02") = false := by decide
    simp only [calculate_emotion_trend, List.map_cons, List.map_nil, hsort]
    norm_num [List.find?, TrendResult.overall, hslope, hneq]

end RIS

namespace RIS

/-- Witness for `emotion_trend_labels`: a two-date trajectory with slope
0.8 is labelled "improving". -/
theorem emotion_trend_labels_witness :
    (calculate_emotion_trend
      [("2024-01-01", ⟨1/10, 9/10, 0, 10⟩),
       ("2024-01-02", ⟨9/10, 1/10, 0, 10⟩)]).overall = some "improving" := by
  have h := emotion_trend_labels
    [("2024-01-01", ⟨1/10, 9/10, 0, 10⟩),
     ("2024-01-02", ⟨9/10, 1/10, 0, 10⟩)]
    (by norm_num)
    (by
      refine List.pairwise_cons.mpr ⟨?_, List.pairwise_singleton _ _⟩
      intro b hb
      simp only [List.mem_singleton] at hb
      subst hb
      exact ⟨by decide, by decide⟩)
  apply h.1
  unfold olsSlope sumXY sumIdx sumIdxSq
  norm_num [List.range_succ]

end RIS

namespace RIS

/-! ### Closed-run machinery -/

theorem M.bind_step {α β : Type} {m : M α} {f : α → M β} {s s' : Ctx}
    {a : α} (h : m s = (.ok a, s')) : M.bind m f s = f a s' := by
  unfold M.bind
  rw [h]

theorem M.bind_step_err {α β : Type} {m : M α} {f : α → M β} {s s' : Ctx}
    {e : PyErr} (h : m s = (.error e, s')) :
    M.bind m f s = (.error e, s') := by
  unfold M.bind
  rw [h]

set_option maxRecDepth 4000 in
/-- The full run of the wild-values scenario. -/
theorem run_wild_values :
    process_interaction "u1" "hi" "topic" none none
      (initCtx oracleWildValues) =
    (.ok { interaction_log_id := 1, pad_analysis := wildPadJ,
           entities := .obj [], new_personas := [], updated_personas := [],
           new_memories := [⟨3, .str "t", .num 20 1, .obj [], .obj []⟩],
           timestamp := 5,
           reply := ⟨"hello", 0, "小助手", .str "friend", [3]⟩ },
     ⟨["u1"],
      [⟨1, "u1", 1, "topic", wildPadVals, .str "furious", "",
        .obj [("text", .str "hi"), ("image", .null)],
        [("assistant_reply", "hello")]⟩],
      [⟨3, "u1", 1, .str "", wildPadJ, .str "t", .arr [], .str "furious",
        .num 20 1, 3, .arr [], .obj []⟩],
      [{ defaultPersonaRow 0 "u1" with interaction_count := 1 }],
      [⟨2, 1, wildPadVals, wildEmoCat, .obj [("confidence", .num 9 1)],
        .str "llm", 2⟩],
      6, 4, 7, oracleWildValues⟩) := by
  have hA : pipeline_analysis_phase "u1" "hi" "topic" none
      (initCtx oracleWildValues) =
      (.ok ("hi", wildPadJ, 1),
       ⟨["u1"],
        [⟨1, "u1", 1, "topic", wildPadVals, .str "furious", "",
          .obj [("text", .str "hi"), ("image", .null)], []⟩],
        [], [defaultPersonaRow 0 "u1"],
        [⟨2, 1, wildPadVals, wildEmoCat, .obj [("confidence", .num 9 1)],
          .str "llm", 2⟩],
        3, 3, 1, oracleWildValues⟩) := rfl
  have hB : pipeline_extraction_phase "u1" "hi" 1 wildPadJ
      ⟨["u1"],
       [⟨1, "u1", 1, "topic", wildPadVals, .str "furious", "",
         .obj [("text", .str "hi"), ("image", .null)], []⟩],
       [], [defaultPersonaRow 0 "u1"],
       [⟨2, 1, wildPadVals, wildEmoCat, .obj [("confidence", .num 9 1)],
         .str "llm", 2⟩],
       3, 3, 1, oracleWildValues⟩ =
      (.ok (.obj [], [], [], [⟨3, .str "t", .num 20 1, .obj [], .obj []⟩]),
       ⟨["u1"],
        [⟨1, "u1", 1, "topic", wildPadVals, .str "furious", "",
          .obj [("text", .str "hi"), ("image", .null)], []⟩],
        [⟨3, "u1", 1, .str "", wildPadJ, .str "t", .arr [], .str "furious",
          .num 20 1, 3, .arr [], .obj []⟩],
        [defaultPersonaRow 0 "u1"],
        [⟨2, 1, wildPadVals, wildEmoCat, .obj [("confidence", .num 9 1)],
          .str "llm", 2⟩],
        4, 4, 6, oracleWildValues⟩) := rfl
  have hC : get_response_to_interaction "u1" none "hi"
      ⟨["u1"],
       [⟨1, "u1", 1, "topic", wildPadVals, .str "furious", "",
         .obj [("text", .str "hi"), ("image", .null)], []⟩],
       [⟨3, "u1", 1, .str "", wildPadJ, .str "t", .arr [], .str "furious",
         .num 20 1, 3, .arr [], .obj []⟩],
       [defaultPersonaRow 0 "u1"],
       [⟨2, 1, wildPadVals, wildEmoCat, .obj [("confidence", .num 9 1)],
         .str "llm", 2⟩],
       4, 4, 6, oracleWildValues⟩ =
      (.ok ⟨"hello", 0, "小助手", .str "friend", [3]⟩,
       ⟨["u1"],
        [⟨1, "u1", 1, "topic", wildPadVals, .str "furious", "",
          .obj [("text", .str "hi"), ("image", .null)],
          [("assistant_reply", "hello")]⟩],
        [⟨3, "u1", 1, .str "", wildPadJ, .str "t", .arr [], .str "furious",
          .num 20 1, 3, .arr [], .obj []⟩],
        [{ defaultPersonaRow 0 "u1" with interaction_count := 1 }],
        [⟨2, 1, wildPadVals, wildEmoCat, .obj [("confidence", .num 9 1)],
          .str "llm", 2⟩],
        5, 4, 7, oracleWildValues⟩) := rfl
  unfold process_interaction
  rw [M.bind_step hA]
  dsimp only
  rw [M.bind_step hB]
  dsimp only
  rw [M.bind_step hC]
  dsimp only
  rfl

end RIS

namespace RIS

/-- C6 counterexample: a pipeline invocation whose model responses carry
pleasure 1.5, importance 2.0 and the label "furious" persists exactly
those values — importance 2.0 lies outside [0,1] and "furious" outside
the enum. -/
theorem pipeline_no_clamp_counterexample :
    ((process_interaction "u1" "hi" "topic" none none
      (initCtx oracleWildValues)).2.memories.map
        (fun m => (m.memory_type, m.importance_score)) =
      [(.str "furious", .num 20 1)]) ∧
    ((process_interaction "u1" "hi" "topic" none none
      (initCtx oracleWildValues)).2.logs.map (fun l => l.emotion_label) =
      [.str "furious"]) ∧
    ¬ (jnumToQ 20 1 ≤ 1) ∧
    "furious" ∉ (["positive", "negative", "neutral"] : List String) := by
  refine ⟨?_, ?_, by norm_num [jnumToQ], by decide⟩
  · rw [run_wild_values]
    rfl
  · rw [run_wild_values]
    rfl

/-- C6, amended: the store applies no clamping and no enum validation —
`create_memory_event` persists `memory_type`, `importance_score` and the
emotion annotation verbatim, `log_interaction` persists `emotion_label`
and `detected_emotion` verbatim, and `save_emotion_analysis` persists the
PAD values verbatim; the documented [0,1]/enum invariant therefore holds
exactly when the extracted model values (or the fallback defaults, which
do satisfy it) already satisfy it. -/
theorem store_values_verbatim :
    (∀ (u : String) (lid : Nat) (ea lt mt isc mr tg en : JVal) (s : Ctx),
      (create_memory_event u lid ea lt mt isc mr tg en s).2.memories.map
          (fun m => (m.memory_type, m.importance_score, m.emotionAnn)) =
        s.memories.map
          (fun m => (m.memory_type, m.importance_score, m.emotionAnn)) ++
          [(mt, isc, ea)]) ∧
    (∀ (u it : String) (de el : JVal) (ra : Option String) (ri : JVal)
      (s : Ctx),
      (log_interaction u it de el ra ri s).2.logs.map
          (fun l => (l.emotion_label, l.detected_emotion)) =
        s.logs.map (fun l => (l.emotion_label, l.detected_emotion)) ++
          [(el, de)]) ∧
    (∀ (lid : Nat) (pv ec cs am : JVal) (s : Ctx),
      (save_emotion_analysis lid pv ec cs am s).2.analyses.map
          (fun a => (a.pad_values, a.confidence_scores)) =
        s.analyses.map (fun a => (a.pad_values, a.confidence_scores)) ++
          [(pv, cs)]) := by
  refine ⟨?_, ?_, ?_⟩
  · intro u lid ea lt mt isc mr tg en s
    simp [create_memory_event, M.bind, freshId, now, M.modifyCtx, M.pure]
  · intro u it de el ra ri s
    simp [log_interaction, M.bind, freshId, now, M.modifyCtx, M.pure]
  · intro lid pv ec cs am s
    simp [save_emotion_analysis, M.bind, freshId, now, M.modifyCtx, M.pure]

end RIS

namespace RIS

theorem ask_json_run_ok (p : String) (fb : JVal) (s : Ctx) (c : String)
    (h : s.oracle s.callIdx = .ok c) :
    ask_json p fb s =
      (.ok (extractJson c.toList fb), { s with callIdx := s.callIdx + 1 }) := by
  unfold ask_json M.tryCatch M.bind chat M.pure
  rw [h]

theorem ask_json_run_err (p : String) (fb : JVal) (s : Ctx)
    (h : s.oracle s.callIdx = .error ()) :
    ask_json p fb s = (.ok fb, { s with callIdx := s.callIdx + 1 }) := by
  unfold ask_json M.tryCatch M.bind chat M.pure
  rw [h]

theorem chat_run_err (msgs : List String) (s : Ctx)
    (h : s.oracle s.callIdx = .error ()) :
    chat msgs s = (.error .transport, { s with callIdx := s.callIdx + 1 }) := by
  unfold chat
  rw [h]

end RIS

namespace RIS

set_option maxRecDepth 4000 in
/-- The full run of the bad-emotion scenario: the emotion response `r`
fails extraction, everything later is benign. -/
theorem run_bad_emotion (r : String)
    (h : extractJson r.toList emotionFallback = emotionFallback) :
    process_interaction "u1" "hi" "topic" none none
      (initCtx (oracleBadEmotion r)) =
    (.ok { interaction_log_id := 1, pad_analysis := emotionFallback,
           entities := .obj [], new_personas := [], updated_personas := [],
           new_memories := [⟨3, .str "t", .num 5 1, .obj [], .obj []⟩],
           timestamp := 5,
           reply := ⟨"hello", 0, "小助手", .str "friend", []⟩ },
     ⟨["u1"],
      [⟨1, "u1", 1, "topic", neutralPadVals, .str "neutral", "",
        .obj [("text", .str "hi"), ("image", .null)],
        [("assistant_reply", "hello")]⟩],
      [⟨3, "u1", 1, .str "", emotionFallback, .str "t", .arr [],
        .str "neutral", .num 5 1, 3, .arr [], .obj []⟩],
      [{ defaultPersonaRow 0 "u1" with interaction_count := 1 }],
      [⟨2, 1, neutralPadVals, neutralEmoCat,
        .obj [("confidence", .num 5 1)], .str "fallback", 2⟩],
      6, 4, 7, oracleBadEmotion r⟩) := by
  have hEmo : analyze_emotion "hi"
      ⟨["u1"], [], [], [defaultPersonaRow 0 "u1"], [], 1, 1, 0,
        oracleBadEmotion r⟩ =
      (.ok emotionFallback,
       ⟨["u1"], [], [], [defaultPersonaRow 0 "u1"], [], 1, 1, 1,
         oracleBadEmotion r⟩) := by
    unfold analyze_emotion
    rw [ask_json_run_ok _ emotionFallback _ r rfl, h]
  have hA : pipeline_analysis_phase "u1" "hi" "topic" none
      (initCtx (oracleBadEmotion r)) =
      (.ok ("hi", emotionFallback, 1),
       ⟨["u1"],
        [⟨1, "u1", 1, "topic", neutralPadVals, .str "neutral", "",
          .obj [("text", .str "hi"), ("image", .null)], []⟩],
        [], [defaultPersonaRow 0 "u1"],
        [⟨2, 1, neutralPadVals, neutralEmoCat,
          .obj [("confidence", .num 5 1)], .str "fallback", 2⟩],
        3, 3, 1, oracleBadEmotion r⟩) := by
    unfold pipeline_analysis_phase
    rw [M.bind_step (show get_user_profile "u1"
      (initCtx (oracleBadEmotion r)) =
      (.ok false, initCtx (oracleBadEmotion r)) from rfl)]
    try dsimp only
    rw [M.bind_step (show (if (false = true) then M.pure "" else
      create_user_profile "u1")
      (initCtx (oracleBadEmotion r)) =
      (.ok "u1", ⟨["u1"], [], [], [], [], 0, 0, 0, oracleBadEmotion r⟩)
      from rfl)]
    try dsimp only
    rw [M.bind_step (show ensure_default_persona "u1"
      ⟨["u1"], [], [], [], [], 0, 0, 0, oracleBadEmotion r⟩ =
      (.ok 0, ⟨["u1"], [], [], [defaultPersonaRow 0 "u1"], [], 1, 1, 0,
        oracleBadEmotion r⟩) from rfl)]
    try dsimp only
    rw [M.bind_step (show (M.pure ("hi", (none : Option String)) :
      M (String × Option String))
      ⟨["u1"], [], [], [defaultPersonaRow 0 "u1"], [], 1, 1, 0,
        oracleBadEmotion r⟩ =
      (.ok ("hi", (none : Option String)),
       ⟨["u1"], [], [], [defaultPersonaRow 0 "u1"], [], 1, 1, 0,
         oracleBadEmotion r⟩) from rfl)]
    try dsimp only
    rw [M.bind_step hEmo]
    try dsimp only
    rfl
  have hB : pipeline_extraction_phase "u1" "hi" 1 emotionFallback
      ⟨["u1"],
       [⟨1, "u1", 1, "topic", neutralPadVals, .str "neutral", "",
         .obj [("text", .str "hi"), ("image", .null)], []⟩],
       [], [defaultPersonaRow 0 "u1"],
       [⟨2, 1, neutralPadVals, neutralEmoCat,
         .obj [("confidence", .num 5 1)], .str "fallback", 2⟩],
       3, 3, 1, oracleBadEmotion r⟩ =
      (.ok (.obj [], [], [], [⟨3, .str "t", .num 5 1, .obj [], .obj []⟩]),
       ⟨["u1"],
        [⟨1, "u1", 1, "topic", neutralPadVals, .str "neutral", "",
          .obj [("text", .str "hi"), ("image", .null)], []⟩],
        [⟨3, "u1", 1, .str "", emotionFallback, .str "t", .arr [],
          .str "neutral", .num 5 1, 3, .arr [], .obj []⟩],
        [defaultPersonaRow 0 "u1"],
        [⟨2, 1, neutralPadVals, neutralEmoCat,
          .obj [("confidence", .num 5 1)], .str "fallback", 2⟩],
        4, 4, 6, oracleBadEmotion r⟩) := rfl
  have hC : get_response_to_interaction "u1" none "hi"
      ⟨["u1"],
       [⟨1, "u1", 1, "topic", neutralPadVals, .str "neutral", "",
         .obj [("text", .str "hi"), ("image", .null)], []⟩],
       [⟨3, "u1", 1, .str "", emotionFallback, .str "t", .arr [],
         .str "neutral", .num 5 1, 3, .arr [], .obj []⟩],
       [defaultPersonaRow 0 "u1"],
       [⟨2, 1, neutralPadVals, neutralEmoCat,
         .obj [("confidence", .num 5 1)], .str "fallback", 2⟩],
       4, 4, 6, oracleBadEmotion r⟩ =
      (.ok ⟨"hello", 0, "小助手", .str "friend", []⟩,
       ⟨["u1"],
        [⟨1, "u1", 1, "topic", neutralPadVals, .str "neutral", "",
          .obj [("text", .str "hi"), ("image", .null)],
          [("assistant_reply", "hello")]⟩],
        [⟨3, "u1", 1, .str "", emotionFallback, .str "t", .arr [],
          .str "neutral", .num 5 1, 3, .arr [], .obj []⟩],
        [{ defaultPersonaRow 0 "u1" with interaction_count := 1 }],
        [⟨2, 1, neutralPadVals, neutralEmoCat,
          .obj [("confidence", .num 5 1)], .str "fallback", 2⟩],
        5, 4, 7, oracleBadEmotion r⟩) := rfl
  unfold process_interaction
  rw [M.bind_step hA]
  try dsimp only
  rw [M.bind_step hB]
  try dsimp only
  rw [M.bind_step hC]
  try dsimp only
  rfl

end RIS

namespace RIS

/-- C5 (amended).  Whenever the emotion-analysis extraction fails to parse
(the response `r` yields the fallback object), the pipeline continues, the
returned `pad_analysis` is the neutral fallback object, and the persisted
EmotionAnalysis record carries the neutral PAD triple (0.5, 0.5, 0.5), the
neutral category, analysis method "fallback" — and confidence 0.5, the
storage layer's default, because the fallback object has no "confidence"
key (not the zero confidence the spec promises). -/
theorem emotion_fallback_persists (r : String)
    (h : extractJson r.toList emotionFallback = emotionFallback) :
    ((process_interaction "u1" "hi" "topic" none none
        (initCtx (oracleBadEmotion r))).2.analyses.map
      (fun a => (a.pad_values, a.emotion_categories, a.confidence_scores,
                 a.analysis_method)) =
      [(neutralPadVals, neutralEmoCat,
        JVal.obj [("confidence", JVal.num 5 1)], JVal.str "fallback")]) ∧
    (∃ res, (process_interaction "u1" "hi" "topic" none none
        (initCtx (oracleBadEmotion r))).1 = .ok res ∧
      res.pad_analysis = emotionFallback) := by
  rw [run_bad_emotion r h]
  exact ⟨rfl, ⟨_, rfl, rfl⟩⟩

/-- Witness for C5: the unparseable response "???" triggers the fallback. -/
theorem emotion_fallback_persists_witness :
    extractJson ("???").toList emotionFallback = emotionFallback ∧
    (((process_interaction "u1" "hi" "topic" none none
        (initCtx (oracleBadEmotion "???"))).2.analyses.map
      (fun a => (a.pad_values, a.emotion_categories, a.confidence_scores,
                 a.analysis_method)) =
      [(neutralPadVals, neutralEmoCat,
        JVal.obj [("confidence", JVal.num 5 1)], JVal.str "fallback")]) ∧
    (∃ res, (process_interaction "u1" "hi" "topic" none none
        (initCtx (oracleBadEmotion "???"))).1 = .ok res ∧
      res.pad_analysis = emotionFallback)) :=
  ⟨rfl, emotion_fallback_persists "???" rfl⟩

/-- Counterexample to C5 as stated: on extraction fallback the persisted
record is tagged "fallback", yet its stored confidence is 0.5, not zero. -/
theorem emotion_fallback_confidence_counterexample :
    ((process_interaction "u1" "hi" "topic" none none
        (initCtx (oracleBadEmotion "???"))).2.analyses.map
      (fun a => (a.analysis_method, a.confidence_scores)) =
      [(JVal.str "fallback",
        JVal.obj [("confidence", JVal.num 5 1)])]) ∧
    jnumToQ 5 1 ≠ 0 := by
  rw [run_bad_emotion "???" rfl]
  refine ⟨rfl, ?_⟩
  norm_num [jnumToQ]

end RIS

namespace RIS

set_option maxRecDepth 4000 in
/-- Run of the scenario where every extraction call fails at transport
level and only the final reply call gets through: every stage degrades to
its typed default and the pipeline completes. -/
theorem run_only_reply_up :
    process_interaction "u1" "hi" "topic" none none
      (initCtx oracleOnlyReplyUp) =
    (.ok { interaction_log_id := 1, pad_analysis := emotionFallback,
           entities := entitiesFallback, new_personas := [],
           updated_personas := [],
           new_memories := [⟨3, .str "日常对话", .num 5 1, entitiesFallback,
             .obj []⟩],
           timestamp := 5,
           reply := ⟨"hello", 0, "小助手", .str "friend", []⟩ },
     ⟨["u1"],
      [⟨1, "u1", 1, "topic", neutralPadVals, .str "neutral", "",
        .obj [("text", .str "hi"), ("image", .null)],
        [("assistant_reply", "hello")]⟩],
      [⟨3, "u1", 1, .str "", emotionFallback, .str "日常对话", .arr [],
        .str "neutral", .num 5 1, 3, entitiesFallback, .obj []⟩],
      [{ defaultPersonaRow 0 "u1" with interaction_count := 1 }],
      [⟨2, 1, neutralPadVals, neutralEmoCat,
        .obj [("confidence", .num 5 1)], .str "fallback", 2⟩],
      6, 4, 7, oracleOnlyReplyUp⟩) := by
  have hA : pipeline_analysis_phase "u1" "hi" "topic" none
      (initCtx oracleOnlyReplyUp) =
      (.ok ("hi", emotionFallback, 1),
       ⟨["u1"],
        [⟨1, "u1", 1, "topic", neutralPadVals, .str "neutral", "",
          .obj [("text", .str "hi"), ("image", .null)], []⟩],
        [], [defaultPersonaRow 0 "u1"],
        [⟨2, 1, neutralPadVals, neutralEmoCat,
          .obj [("confidence", .num 5 1)], .str "fallback", 2⟩],
        3, 3, 1, oracleOnlyReplyUp⟩) := rfl
  have hB : pipeline_extraction_phase "u1" "hi" 1 emotionFallback
      ⟨["u1"],
       [⟨1, "u1", 1, "topic", neutralPadVals, .str "neutral", "",
         .obj [("text", .str "hi"), ("image", .null)], []⟩],
       [], [defaultPersonaRow 0 "u1"],
       [⟨2, 1, neutralPadVals, neutralEmoCat,
         .obj [("confidence", .num 5 1)], .str "fallback", 2⟩],
       3, 3, 1, oracleOnlyReplyUp⟩ =
      (.ok (entitiesFallback, [], [],
        [⟨3, .str "日常对话", .num 5 1, entitiesFallback, .obj []⟩]),
       ⟨["u1"],
        [⟨1, "u1", 1, "topic", neutralPadVals, .str "neutral", "",
          .obj [("text", .str "hi"), ("image", .null)], []⟩],
        [⟨3, "u1", 1, .str "", emotionFallback, .str "日常对话", .arr [],
          .str "neutral", .num 5 1, 3, entitiesFallback, .obj []⟩],
        [defaultPersonaRow 0 "u1"],
        [⟨2, 1, neutralPadVals, neutralEmoCat,
          .obj [("confidence", .num 5 1)], .str "fallback", 2⟩],
        4, 4, 6, oracleOnlyReplyUp⟩) := rfl
  have hC : get_response_to_interaction "u1" none "hi"
      ⟨["u1"],
       [⟨1, "u1", 1, "topic", neutralPadVals, .str "neutral", "",
         .obj [("text", .str "hi"), ("image", .null)], []⟩],
       [⟨3, "u1", 1, .str "", emotionFallback, .str "日常对话", .arr [],
         .str "neutral", .num 5 1, 3, entitiesFallback, .obj []⟩],
       [defaultPersonaRow 0 "u1"],
       [⟨2, 1, neutralPadVals, neutralEmoCat,
         .obj [("confidence", .num 5 1)], .str "fallback", 2⟩],
       4, 4, 6, oracleOnlyReplyUp⟩ =
      (.ok ⟨"hello", 0, "小助手", .str "friend", []⟩,
       ⟨["u1"],
        [⟨1, "u1", 1, "topic", neutralPadVals, .str "neutral", "",
          .obj [("text", .str "hi"), ("image", .null)],
          [("assistant_reply", "hello")]⟩],
        [⟨3, "u1", 1, .str "", emotionFallback, .str "日常对话", .arr [],
          .str "neutral", .num 5 1, 3, entitiesFallback, .obj []⟩],
        [{ defaultPersonaRow 0 "u1" with interaction_count := 1 }],
        [⟨2, 1, neutralPadVals, neutralEmoCat,
          .obj [("confidence", .num 5 1)], .str "fallback", 2⟩],
        5, 4, 7, oracleOnlyReplyUp⟩) := rfl
  unfold process_interaction
  rw [M.bind_step hA]
  try dsimp only
  rw [M.bind_step hB]
  try dsimp only
  rw [M.bind_step hC]
  try dsimp only
  rfl

end RIS

namespace RIS

set_option maxRecDepth 4000 in
/-- Run of the scenario where the endpoint is unreachable for every call:
all extraction stages degrade to their defaults and their writes land, and
only the reply-synthesis call aborts the invocation with a transport
error. -/
theorem run_all_down :
    process_interaction "u1" "hi" "topic" none none
      (initCtx oracleAllDown) =
    (.error .transport,
     ⟨["u1"],
      [⟨1, "u1", 1, "topic", neutralPadVals, .str "neutral", "",
        .obj [("text", .str "hi"), ("image", .null)], []⟩],
      [⟨3, "u1", 1, .str "", emotionFallback, .str "日常对话", .arr [],
        .str "neutral", .num 5 1, 3, entitiesFallback, .obj []⟩],
      [defaultPersonaRow 0 "u1"],
      [⟨2, 1, neutralPadVals, neutralEmoCat,
        .obj [("confidence", .num 5 1)], .str "fallback", 2⟩],
      4, 4, 7, oracleAllDown⟩) := by
  have hA : pipeline_analysis_phase "u1" "hi" "topic" none
      (initCtx oracleAllDown) =
      (.ok ("hi", emotionFallback, 1),
       ⟨["u1"],
        [⟨1, "u1", 1, "topic", neutralPadVals, .str "neutral", "",
          .obj [("text", .str "hi"), ("image", .null)], []⟩],
        [], [defaultPersonaRow 0 "u1"],
        [⟨2, 1, neutralPadVals, neutralEmoCat,
          .obj [("confidence", .num 5 1)], .str "fallback", 2⟩],
        3, 3, 1, oracleAllDown⟩) := rfl
  have hB : pipeline_extraction_phase "u1" "hi" 1 emotionFallback
      ⟨["u1"],
       [⟨1, "u1", 1, "topic", neutralPadVals, .str "neutral", "",
         .obj [("text", .str "hi"), ("image", .null)], []⟩],
       [], [defaultPersonaRow 0 "u1"],
       [⟨2, 1, neutralPadVals, neutralEmoCat,
         .obj [("confidence", .num 5 1)], .str "fallback", 2⟩],
       3, 3, 1, oracleAllDown⟩ =
      (.ok (entitiesFallback, [], [],
        [⟨3, .str "日常对话", .num 5 1, entitiesFallback, .obj []⟩]),
       ⟨["u1"],
        [⟨1, "u1", 1, "topic", neutralPadVals, .str "neutral", "",
          .obj [("text", .str "hi"), ("image", .null)], []⟩],
        [⟨3, "u1", 1, .str "", emotionFallback, .str "日常对话", .arr [],
          .str "neutral", .num 5 1, 3, entitiesFallback, .obj []⟩],
        [defaultPersonaRow 0 "u1"],
        [⟨2, 1, neutralPadVals, neutralEmoCat,
          .obj [("confidence", .num 5 1)], .str "fallback", 2⟩],
        4, 4, 6, oracleAllDown⟩) := rfl
  have hC : get_response_to_interaction "u1" none "hi"
      ⟨["u1"],
       [⟨1, "u1", 1, "topic", neutralPadVals, .str "neutral", "",
         .obj [("text", .str "hi"), ("image", .null)], []⟩],
       [⟨3, "u1", 1, .str "", emotionFallback, .str "日常对话", .arr [],
         .str "neutral", .num 5 1, 3, entitiesFallback, .obj []⟩],
       [defaultPersonaRow 0 "u1"],
       [⟨2, 1, neutralPadVals, neutralEmoCat,
         .obj [("confidence", .num 5 1)], .str "fallback", 2⟩],
       4, 4, 6, oracleAllDown⟩ =
      (.error .transport,
       ⟨["u1"],
        [⟨1, "u1", 1, "topic", neutralPadVals, .str "neutral", "",
          .obj [("text", .str "hi"), ("image", .null)], []⟩],
        [⟨3, "u1", 1, .str "", emotionFallback, .str "日常对话", .arr [],
          .str "neutral", .num 5 1, 3, entitiesFallback, .obj []⟩],
        [defaultPersonaRow 0 "u1"],
        [⟨2, 1, neutralPadVals, neutralEmoCat,
          .obj [("confidence", .num 5 1)], .str "fallback", 2⟩],
        4, 4, 7, oracleAllDown⟩) := rfl
  unfold process_interaction
  rw [M.bind_step hA]
  try dsimp only
  rw [M.bind_step hB]
  try dsimp only
  rw [M.bind_step_err hC]

end RIS

namespace RIS

set_option maxRecDepth 4000 in
/-- Run of the scenario where only the emotion-analysis call fails at
transport level: the failure is swallowed, the fallback is persisted, and
the pipeline completes normally. -/
theorem run_emotion_down :
    process_interaction "u1" "hi" "topic" none none
      (initCtx oracleEmotionDown) =
    (.ok { interaction_log_id := 1, pad_analysis := emotionFallback,
           entities := .obj [], new_personas := [], updated_personas := [],
           new_memories := [⟨3, .str "t", .num 5 1, .obj [], .obj []⟩],
           timestamp := 5,
           reply := ⟨"hello", 0, "小助手", .str "friend", []⟩ },
     ⟨["u1"],
      [⟨1, "u1", 1, "topic", neutralPadVals, .str "neutral", "",
        .obj [("text", .str "hi"), ("image", .null)],
        [("assistant_reply", "hello")]⟩],
      [⟨3, "u1", 1, .str "", emotionFallback, .str "t", .arr [],
        .str "neutral", .num 5 1, 3, .arr [], .obj []⟩],
      [{ defaultPersonaRow 0 "u1" with interaction_count := 1 }],
      [⟨2, 1, neutralPadVals, neutralEmoCat,
        .obj [("confidence", .num 5 1)], .str "fallback", 2⟩],
      6, 4, 7, oracleEmotionDown⟩) := by
  have hA : pipeline_analysis_phase "u1" "hi" "topic" none
      (initCtx oracleEmotionDown) =
      (.ok ("hi", emotionFallback, 1),
       ⟨["u1"],
        [⟨1, "u1", 1, "topic", neutralPadVals, .str "neutral", "",
          .obj [("text", .str "hi"), ("image", .null)], []⟩],
        [], [defaultPersonaRow 0 "u1"],
        [⟨2, 1, neutralPadVals, neutralEmoCat,
          .obj [("confidence", .num 5 1)], .str "fallback", 2⟩],
        3, 3, 1, oracleEmotionDown⟩) := rfl
  have hB : pipeline_extraction_phase "u1" "hi" 1 emotionFallback
      ⟨["u1"],
       [⟨1, "u1", 1, "topic", neutralPadVals, .str "neutral", "",
         .obj [("text", .str "hi"), ("image", .null)], []⟩],
       [], [defaultPersonaRow 0 "u1"],
       [⟨2, 1, neutralPadVals, neutralEmoCat,
         .obj [("confidence", .num 5 1)], .str "fallback", 2⟩],
       3, 3, 1, oracleEmotionDown⟩ =
      (.ok (.obj [], [], [], [⟨3, .str "t", .num 5 1, .obj [], .obj []⟩]),
       ⟨["u1"],
        [⟨1, "u1", 1, "topic", neutralPadVals, .str "neutral", "",
          .obj [("text", .str "hi"), ("image", .null)], []⟩],
        [⟨3, "u1", 1, .str "", emotionFallback, .str "t", .arr [],
          .str "neutral", .num 5 1, 3, .arr [], .obj []⟩],
        [defaultPersonaRow 0 "u1"],
        [⟨2, 1, neutralPadVals, neutralEmoCat,
          .obj [("confidence", .num 5 1)], .str "fallback", 2⟩],
        4, 4, 6, oracleEmotionDown⟩) := rfl
  have hC : get_response_to_interaction "u1" none "hi"
      ⟨["u1"],
       [⟨1, "u1", 1, "topic", neutralPadVals, .str "neutral", "",
         .obj [("text", .str "hi"), ("image", .null)], []⟩],
       [⟨3, "u1", 1, .str "", emotionFallback, .str "t", .arr [],
         .str "neutral", .num 5 1, 3, .arr [], .obj []⟩],
       [defaultPersonaRow 0 "u1"],
       [⟨2, 1, neutralPadVals, neutralEmoCat,
         .obj [("confidence", .num 5 1)], .str "fallback", 2⟩],
       4, 4, 6, oracleEmotionDown⟩ =
      (.ok ⟨"hello", 0, "小助手", .str "friend", []⟩,
       ⟨["u1"],
        [⟨1, "u1", 1, "topic", neutralPadVals, .str "neutral", "",
          .obj [("text", .str "hi"), ("image", .null)],
          [("assistant_reply", "hello")]⟩],
        [⟨3, "u1", 1, .str "", emotionFallback, .str "t", .arr [],
          .str "neutral", .num 5 1, 3, .arr [], .obj []⟩],
        [{ defaultPersonaRow 0 "u1" with interaction_count := 1 }],
        [⟨2, 1, neutralPadVals, neutralEmoCat,
          .obj [("confidence", .num 5 1)], .str "fallback", 2⟩],
        5, 4, 7, oracleEmotionDown⟩) := rfl
  unfold process_interaction
  rw [M.bind_step hA]
  try dsimp only
  rw [M.bind_step hB]
  try dsimp only
  rw [M.bind_step hC]
  try dsimp only
  rfl

end RIS

namespace RIS

theorem chat_with_image_run_err (msgs : List String) (s : Ctx)
    (h : s.oracle s.callIdx = .error ()) :
    chat_with_image msgs s =
      (.error .transport, { s with callIdx := s.callIdx + 1 }) := by
  unfold chat_with_image
  rw [h]

/-- `_analyze_image` issues its multimodal request outside `_ask_json`:
a transport failure there surfaces as the raised error. -/
theorem analyze_image_transport (img : ImageInput) (f : String) (s : Ctx)
    (hb : img.b64 ≠ "")
    (hf : normalize_image_format (pySplitLastDot img.path) = .ok f)
    (he : s.oracle s.callIdx = .error ()) :
    analyze_image img s =
      (.error .transport, { s with callIdx := s.callIdx + 1 }) := by
  unfold analyze_image
  try dsimp only
  rw [if_neg hb, hf]
  rw [M.bind_step (show (M.pure f : M String) s = (.ok f, s) from rfl)]
  rw [M.bind_step_err (chat_with_image_run_err _ s he)]

set_option maxRecDepth 4000 in
/-- Run of an image-bearing invocation with the endpoint down: the
image-grounding call itself aborts the invocation — no log, no analysis,
a single model call attempted. -/
theorem run_image_down :
    process_interaction "u1" "hi" "topic" (some ⟨"photo.png", "abc"⟩) none
      (initCtx oracleAllDown) =
    (.error .transport,
     ⟨["u1"], [], [], [defaultPersonaRow 0 "u1"], [], 1, 1, 1,
      oracleAllDown⟩) := by
  have hA : pipeline_analysis_phase "u1" "hi" "topic"
      (some ⟨"photo.png", "abc"⟩) (initCtx oracleAllDown) =
      (.error .transport,
       ⟨["u1"], [], [], [defaultPersonaRow 0 "u1"], [], 1, 1, 1,
        oracleAllDown⟩) := rfl
  unfold process_interaction
  rw [M.bind_step_err hA]

/-- C1 (amended).  JSON-shape failures at an extraction stage degrade to
that stage's typed default and the pipeline continues — and so do
transport failures at those stages, because `_ask_json` catches every
exception: any extraction call whose transport fails yields the fallback
and advances.  A transport failure aborts the invocation and propagates
to the caller exactly at the two calls made outside `_ask_json`: the
optional image-grounding call (when an image is supplied, before any
write) and the final reply-synthesis call (after the analysis and
extraction writes, which are kept). -/
theorem transport_failure_semantics :
    (∀ (p : String) (fb : JVal) (s : Ctx), s.oracle s.callIdx = .error () →
      ask_json p fb s = (.ok fb, { s with callIdx := s.callIdx + 1 })) ∧
    (∀ (img : ImageInput) (f : String) (s : Ctx), img.b64 ≠ "" →
      normalize_image_format (pySplitLastDot img.path) = .ok f →
      s.oracle s.callIdx = .error () →
      analyze_image img s =
        (.error .transport, { s with callIdx := s.callIdx + 1 })) ∧
    (process_interaction "u1" "hi" "topic" none none
        (initCtx oracleOnlyReplyUp)).1 =
      .ok { interaction_log_id := 1, pad_analysis := emotionFallback,
            entities := entitiesFallback, new_personas := [],
            updated_personas := [],
            new_memories := [⟨3, .str "日常对话", .num 5 1, entitiesFallback,
              .obj []⟩],
            timestamp := 5,
            reply := ⟨"hello", 0, "小助手", .str "friend", []⟩ } ∧
    (process_interaction "u1" "hi" "topic" none none
        (initCtx oracleAllDown)).1 = .error .transport ∧
    process_interaction "u1" "hi" "topic" (some ⟨"photo.png", "abc"⟩) none
      (initCtx oracleAllDown) =
      (.error .transport,
       ⟨["u1"], [], [], [defaultPersonaRow 0 "u1"], [], 1, 1, 1,
        oracleAllDown⟩) := by
  refine ⟨ask_json_run_err, analyze_image_transport, ?_, ?_, run_image_down⟩
  · rw [run_only_reply_up]
  · rw [run_all_down]

/-- Witness for C1: the all-down oracle refuses its very first call;
`ask_json` on the empty store still returns the fallback, while
`analyze_image` on a valid png input aborts with the transport error. -/
theorem transport_failure_semantics_witness :
    ((initCtx oracleAllDown).oracle (initCtx oracleAllDown).callIdx =
      .error ()) ∧
    ask_json "p" (.obj []) (initCtx oracleAllDown) =
      (.ok (.obj []), ⟨[], [], [], [], [], 0, 0, 0 + 1, oracleAllDown⟩) ∧
    ((⟨"photo.png", "abc"⟩ : ImageInput).b64 ≠ "") ∧
    normalize_image_format (pySplitLastDot
      (⟨"photo.png", "abc"⟩ : ImageInput).path) = .ok "png" ∧
    analyze_image ⟨"photo.png", "abc"⟩ (initCtx oracleAllDown) =
      (.error .transport,
       ⟨[], [], [], [], [], 0, 0, 0 + 1, oracleAllDown⟩) ∧
    (process_interaction "u1" "hi" "topic" none none
        (initCtx oracleAllDown)).1 = .error .transport :=
  ⟨rfl, transport_failure_semantics.1 "p" (.obj []) (initCtx oracleAllDown) rfl,
   by decide, rfl,
   transport_failure_semantics.2.1 ⟨"photo.png", "abc"⟩ "png"
     (initCtx oracleAllDown) (by decide) rfl rfl,
   transport_failure_semantics.2.2.2.1⟩

/-- Counterexample to C1 as stated: the emotion-analysis call fails at
transport level (retry exhaustion), yet the interaction is not aborted —
it completes successfully, with the fallback persisted. -/
theorem transport_abort_counterexample :
    oracleEmotionDown 0 = .error () ∧
    (∃ res, (process_interaction "u1" "hi" "topic" none none
        (initCtx oracleEmotionDown)).1 = .ok res) ∧
    ((process_interaction "u1" "hi" "topic" none none
        (initCtx oracleEmotionDown)).2.analyses.map
      (fun a => a.analysis_method) = [JVal.str "fallback"]) := by
  refine ⟨rfl, ?_, ?_⟩
  · rw [run_emotion_down]
    exact ⟨_, rfl⟩
  · rw [run_emotion_down]
    rfl

end RIS

namespace RIS

set_option maxRecDepth 4000 in
set_option maxHeartbeats 2000000 in
/-- Run of the happy-path conversation mentioning Alice: every model call
succeeds with well-formed JSON. -/
theorem run_alice :
    process_interaction "u1" "hi" "topic" none none (initCtx oracleAlice) =
    (.ok { interaction_log_id := 1, pad_analysis := happyPadJ,
           entities := aliceEntities,
           new_personas := [⟨3, .obj [("personality_traits",
             .arr [.str "kind"]), ("avatar_type", .str "friend")], "Alice"⟩],
           updated_personas := [⟨3, "u1", "Alice", "对话中出现的角色：Alice",
             .arr [.str "kind"], .str "casual", 0, .str "friend"⟩],
           new_memories := [⟨4, .str "meeting", .num 8 1, aliceEntities,
             .obj []⟩],
           timestamp := 6,
           reply := ⟨"hi!", 0, "小助手", .str "friend", [4]⟩ },
     ⟨["u1"],
      [⟨1, "u1", 1, "topic", happyPadVals, .str "positive", "",
        .obj [("text", .str "hi"), ("image", .null)],
        [("assistant_reply", "hi!")]⟩],
      [⟨4, "u1", 1, .str "", happyPadJ, .str "meeting", .arr [],
        .str "positive", .num 8 1, 4, aliceEntities, .obj []⟩],
      [{ defaultPersonaRow 0 "u1" with interaction_count := 1 },
       ⟨3, "u1", "Alice", "对话中出现的角色：Alice", .arr [.str "kind"],
        .str "casual", 0, .str "friend"⟩],
      [⟨2, 1, happyPadVals, happyEmoCat,
        .obj [("confidence", .num 9 1)], .str "llm", 2⟩],
      7, 5, 8, oracleAlice⟩) := by
  have hA : pipeline_analysis_phase "u1" "hi" "topic" none
      (initCtx oracleAlice) =
      (.ok ("hi", happyPadJ, 1),
       ⟨["u1"],
        [⟨1, "u1", 1, "topic", happyPadVals, .str "positive", "",
          .obj [("text", .str "hi"), ("image", .null)], []⟩],
        [], [defaultPersonaRow 0 "u1"],
        [⟨2, 1, happyPadVals, happyEmoCat,
          .obj [("confidence", .num 9 1)], .str "llm", 2⟩],
        3, 3, 1, oracleAlice⟩) := rfl
  have hB : pipeline_extraction_phase "u1" "hi" 1 happyPadJ
      ⟨["u1"],
       [⟨1, "u1", 1, "topic", happyPadVals, .str "positive", "",
         .obj [("text", .str "hi"), ("image", .null)], []⟩],
       [], [defaultPersonaRow 0 "u1"],
       [⟨2, 1, happyPadVals, happyEmoCat,
         .obj [("confidence", .num 9 1)], .str "llm", 2⟩],
       3, 3, 1, oracleAlice⟩ =
      (.ok (aliceEntities,
        [⟨3, .obj [("personality_traits", .arr [.str "kind"]),
          ("avatar_type", .str "friend")], "Alice"⟩],
        [⟨3, "u1", "Alice", "对话中出现的角色：Alice", .arr [.str "kind"],
          .str "casual", 0, .str "friend"⟩],
        [⟨4, .str "meeting", .num 8 1, aliceEntities, .obj []⟩]),
       ⟨["u1"],
        [⟨1, "u1", 1, "topic", happyPadVals, .str "positive", "",
          .obj [("text", .str "hi"), ("image", .null)], []⟩],
        [⟨4, "u1", 1, .str "", happyPadJ, .str "meeting", .arr [],
          .str "positive", .num 8 1, 4, aliceEntities, .obj []⟩],
        [defaultPersonaRow 0 "u1",
         ⟨3, "u1", "Alice", "对话中出现的角色：Alice", .arr [.str "kind"],
          .str "casual", 0, .str "friend"⟩],
        [⟨2, 1, happyPadVals, happyEmoCat,
          .obj [("confidence", .num 9 1)], .str "llm", 2⟩],
        5, 5, 7, oracleAlice⟩) := rfl
  have hC : get_response_to_interaction "u1" none "hi"
      ⟨["u1"],
       [⟨1, "u1", 1, "topic", happyPadVals, .str "positive", "",
         .obj [("text", .str "hi"), ("image", .null)], []⟩],
       [⟨4, "u1", 1, .str "", happyPadJ, .str "meeting", .arr [],
         .str "positive", .num 8 1, 4, aliceEntities, .obj []⟩],
       [defaultPersonaRow 0 "u1",
        ⟨3, "u1", "Alice", "对话中出现的角色：Alice", .arr [.str "kind"],
         .str "casual", 0, .str "friend"⟩],
       [⟨2, 1, happyPadVals, happyEmoCat,
         .obj [("confidence", .num 9 1)], .str "llm", 2⟩],
       5, 5, 7, oracleAlice⟩ =
      (.ok ⟨"hi!", 0, "小助手", .str "friend", [4]⟩,
       ⟨["u1"],
        [⟨1, "u1", 1, "topic", happyPadVals, .str "positive", "",
          .obj [("text", .str "hi"), ("image", .null)],
          [("assistant_reply", "hi!")]⟩],
        [⟨4, "u1", 1, .str "", happyPadJ, .str "meeting", .arr [],
          .str "positive", .num 8 1, 4, aliceEntities, .obj []⟩],
        [{ defaultPersonaRow 0 "u1" with interaction_count := 1 },
         ⟨3, "u1", "Alice", "对话中出现的角色：Alice", .arr [.str "kind"],
          .str "casual", 0, .str "friend"⟩],
        [⟨2, 1, happyPadVals, happyEmoCat,
          .obj [("confidence", .num 9 1)], .str "llm", 2⟩],
        6, 5, 8, oracleAlice⟩) := rfl
  unfold process_interaction
  rw [M.bind_step hA]
  try dsimp only
  rw [M.bind_step hB]
  try dsimp only
  rw [M.bind_step hC]
  try dsimp only
  rfl

end RIS

namespace RIS

/-- C3.  A happy-path invocation creates exactly one MemoryEvent carrying
the emotion label as its memory_type and the topic summary as its linked
topic — but the extracted entities map ends up in the record's `tags`
column, and the `entities` column is the empty object: `_create_memories`
passes `[], entities` positionally into `create_memory_event`, whose
parameter order is `..., media_reference, tags, entities`. -/
theorem memory_event_entity_misplacement :
    (∃ res, (process_interaction "u1" "hi" "topic" none none
        (initCtx oracleAlice)).1 = .ok res ∧
      res.entities = aliceEntities ∧
      res.new_memories.map (fun m => m.entities) = [aliceEntities]) ∧
    ((process_interaction "u1" "hi" "topic" none none
        (initCtx oracleAlice)).2.memories.map
      (fun m => (m.memory_type, m.linked_topic, m.tags, m.entities)) =
      [(.str "positive", .str "meeting", aliceEntities, .obj [])]) ∧
    aliceEntities ≠ JVal.obj [] := by
  refine ⟨?_, ?_, by simp [aliceEntities]⟩
  · rw [run_alice]
    exact ⟨_, rfl, rfl, rfl⟩
  · rw [run_alice]
    rfl

end RIS

namespace RIS

/-! ### Persona-frame lemmas: operations that never change name lists -/

theorem pnames_pure {α : Type} (a : α) : PNames (M.pure a) :=
  fun _ _ => rfl

theorem pnames_throw {α : Type} (e : PyErr) : PNames (M.throw e : M α) :=
  fun _ _ => rfl

theorem pnames_read {α : Type} (f : Ctx → α) : PNames (M.read f) :=
  fun _ _ => rfl

theorem pnames_bind {α β : Type} {m : M α} {f : α → M β} (hm : PNames m)
    (hf : ∀ a, PNames (f a)) : PNames (M.bind m f) := by
  intro s u
  have hb : namesOf (m s).2.personas u = namesOf s.personas u := hm s u
  unfold M.bind
  cases h : m s with
  | mk r s' =>
    rw [h] at hb
    cases r with
    | ok a => exact (hf a s' u).trans hb
    | error e => exact hb

theorem pnames_tryCatch {α : Type} {m : M α} {h : PyErr → M α}
    (hm : PNames m) (hh : ∀ e, PNames (h e)) : PNames (M.tryCatch m h) := by
  intro s u
  have hb : namesOf (m s).2.personas u = namesOf s.personas u := hm s u
  unfold M.tryCatch
  cases hq : m s with
  | mk r s' =>
    rw [hq] at hb
    cases r with
    | ok a => exact hb
    | error e => exact (hh e s' u).trans hb

theorem pnames_mmap {α β : Type} {f : α → M β} (hf : ∀ x, PNames (f x)) :
    ∀ xs : List α, PNames (mmap f xs)
  | [] => pnames_pure _
  | x :: xs => by
    unfold mmap
    exact pnames_bind (hf x) fun y =>
      pnames_bind (pnames_mmap hf xs) fun ys => pnames_pure _

theorem pnames_mfilter {α : Type} {f : α → M Bool} (hf : ∀ x, PNames (f x)) :
    ∀ xs : List α, PNames (mfilter f xs)
  | [] => pnames_pure _
  | x :: xs => by
    unfold mfilter
    exact pnames_bind (hf x) fun b =>
      pnames_bind (pnames_mfilter hf xs) fun ys => pnames_pure _

theorem pnames_freshId : PNames freshId := fun _ _ => rfl

theorem pnames_now : PNames now := fun _ _ => rfl

theorem pnames_chat (msgs : List String) : PNames (chat msgs) := by
  intro s u
  unfold chat
  cases s.oracle s.callIdx <;> rfl

theorem pnames_chat_with_image (msgs : List String) :
    PNames (chat_with_image msgs) := by
  intro s u
  unfold chat_with_image
  cases s.oracle s.callIdx <;> rfl

theorem pnames_ask_json (p : String) (fb : JVal) : PNames (ask_json p fb) :=
  pnames_tryCatch
    (pnames_bind (pnames_chat [p]) fun txt => pnames_pure _)
    (fun _ => pnames_pure _)

theorem pnames_pyGet (v : JVal) (k : String) (d : JVal) :
    PNames (pyGet v k d) := by
  intro s u
  cases v <;> rfl

theorem pnames_pyIndex (v : JVal) (k : String) : PNames (pyIndex v k) := by
  intro s u
  cases v with
  | obj kvs =>
    show namesOf ((match jlookup kvs k with
      | some x => M.pure x
      | none => M.throw (PyErr.keyError k)) s).2.personas u =
      namesOf s.personas u
    cases jlookup kvs k <;> rfl
  | _ => rfl

theorem pnames_pyStrList (v : JVal) : PNames (pyStrList v) := by
  cases v with
  | arr xs =>
    unfold pyStrList
    exact pnames_mmap (fun x => by cases x <;> exact fun s u => rfl) xs
  | _ => exact fun s u => rfl

theorem pnames_pyJoin (sep : String) (v : JVal) : PNames (pyJoin sep v) := by
  cases v with
  | arr xs =>
    unfold pyJoin
    exact pnames_bind
      (pnames_mmap (fun x => by cases x <;> exact fun s u => rfl) xs)
      (fun strs => pnames_pure _)
  | _ => exact fun s u => rfl

theorem pnames_pyGeFloat (v : JVal) (tm : Int) (ts : Nat) :
    PNames (pyGeFloat v tm ts) := by
  intro s u
  cases v <;> rfl

theorem pnames_get_user_profile (u : String) :
    PNames (get_user_profile u) := pnames_read _

theorem pnames_create_user_profile (uid : String) :
    PNames (create_user_profile uid) := by
  intro s u
  unfold create_user_profile M.bind M.modifyCtx M.pure
  dsimp only
  split <;> rfl

theorem pnames_log_interaction (uid ty : String) (de el : JVal)
    (ra : Option String) (ri : JVal) :
    PNames (log_interaction uid ty de el ra ri) := fun _ _ => rfl

theorem pnames_save_emotion_analysis (lid : Nat) (pv ec cs am : JVal) :
    PNames (save_emotion_analysis lid pv ec cs am) := fun _ _ => rfl

theorem pnames_create_memory_event (uid : String) (lid : Nat)
    (ea lt mt isc mr tg en : JVal) :
    PNames (create_memory_event uid lid ea lt mt isc mr tg en) :=
  fun _ _ => rfl

theorem pnames_save_assistant_reply (lid : Nat) (r : String) :
    PNames (save_assistant_reply lid r) := fun _ _ => rfl

theorem pnames_get_interaction_logs (u : String) (n : Nat) :
    PNames (get_interaction_logs u n) := pnames_read _

theorem pnames_get_memory_events (u : String) (ty : Option JVal) (n : Nat) :
    PNames (get_memory_events u ty n) := pnames_read _

theorem pnames_get_personas (u : String) :
    PNames (get_personas u) := pnames_read _

theorem namesOf_map (l : List PersonaRec) (u : String)
    (g : PersonaRec → PersonaRec)
    (hg : ∀ p, (g p).user_id = p.user_id ∧ (g p).name = p.name) :
    namesOf (l.map g) u = namesOf l u := by
  unfold namesOf
  induction l with
  | nil => rfl
  | cons p ps ih =>
    simp only [List.map_cons, List.filter_cons, (hg p).1]
    by_cases hu : (p.user_id == u) = true
    · simp [hu, ih, (hg p).2]
    · simp [hu, ih]

theorem pnames_analyze_image (img : ImageInput) :
    PNames (analyze_image img) := by
  unfold analyze_image
  dsimp only
  split
  · exact pnames_throw _
  · refine pnames_bind ?_ fun fmt =>
      pnames_bind (pnames_chat_with_image _) fun rsp => pnames_pure _
    cases normalize_image_format (pySplitLastDot img.path) with
    | ok f => exact pnames_pure _
    | error e => exact pnames_throw _

theorem pnames_increment (pid inc : Nat) :
    PNames (increment_persona_interaction pid inc) := by
  intro s u
  show namesOf (s.personas.map fun p =>
      if p.persona_id == pid then
        { p with interaction_count := p.interaction_count + inc }
      else p) u = namesOf s.personas u
  exact namesOf_map _ u _ (fun p => by
    by_cases h : (p.persona_id == pid) = true <;> simp [h])

end RIS

namespace RIS

theorem pyGet_state (v : JVal) (k : String) (d : JVal) (s : Ctx) :
    (pyGet v k d s).2 = s := by
  cases v <;> rfl

theorem pyIndex_state (v : JVal) (k : String) (s : Ctx) :
    (pyIndex v k s).2 = s := by
  cases v with
  | obj kvs =>
    show ((match jlookup kvs k with
      | some x => M.pure x
      | none => M.throw (PyErr.keyError k)) s).2 = s
    cases jlookup kvs k <;> rfl
  | _ => rfl

theorem ask_json_total (p : String) (fb : JVal) (s : Ctx) :
    ∃ v, ask_json p fb s = (.ok v, { s with callIdx := s.callIdx + 1 }) := by
  cases hq : s.oracle s.callIdx with
  | ok c => exact ⟨_, ask_json_run_ok p fb s c hq⟩
  | error e => exact ⟨fb, ask_json_run_err p fb s (by cases e; exact hq)⟩

theorem create_persona_run (u name : String) (d : Option String)
    (tr cs av : JVal) (s : Ctx) :
    create_persona u name d tr cs av s =
      (.ok s.nextId, { s with
        personas := s.personas ++ [⟨s.nextId, u, name,
          d.getD ("角色: " ++ name), pyOr tr (.arr []),
          pyOr cs (.str "neutral"), 0, av⟩],
        nextId := s.nextId + 1, time := s.time + 1 }) := rfl

theorem namesOf_append (l₁ l₂ : List PersonaRec) (u : String) :
    namesOf (l₁ ++ l₂) u = namesOf l₁ u ++ namesOf l₂ u := by
  unfold namesOf
  rw [List.filter_append, List.map_append]

theorem namesOf_single (p : PersonaRec) (u : String) :
    namesOf [p] u = if p.user_id == u then [p.name] else [] := by
  unfold namesOf
  by_cases h : (p.user_id == u) = true <;> simp [List.filter, h]

theorem bind_establishes {α β : Type} (P Q : Ctx → Prop) {m : M α}
    {f : α → M β} (hm : ∀ s, P s → Q (m s).2)
    (hf : ∀ a s, Q s → Q ((f a) s).2) :
    ∀ s, P s → Q ((M.bind m f) s).2 := by
  intro s hp
  unfold M.bind
  rcases hq : m s with ⟨r, s'⟩
  have hQ : Q s' := by
    have := hm s hp
    rw [hq] at this
    exact this
  cases r with
  | ok a => exact hf a s' hQ
  | error e => exact hQ

theorem bind_total_estab {α β : Type} (P Q : Ctx → Prop) {m : M α}
    {f : α → M β} (htot : ∀ s, ∃ a s', m s = (.ok a, s'))
    (hm : ∀ s, P s → P (m s).2)
    (hf : ∀ a s, P s → Q ((f a) s).2) :
    ∀ s, P s → Q ((M.bind m f) s).2 := by
  intro s hp
  unfold M.bind
  obtain ⟨a, s', hq⟩ := htot s
  rw [hq]
  have hP : P s' := by
    have := hm s hp
    rw [hq] at this
    exact this
  exact hf a s' hP

theorem pnames_inv {α : Type} {m : M α} (hm : PNames m) :
    ∀ s, PersonaInv s → PersonaInv (m s).2 := by
  intro s h u'
  have heq := hm s u'
  unfold personaNames
  rw [heq]
  exact h u'

theorem pnames_keeps (u : String) {α : Type} {m : M α} (hm : PNames m) :
    ∀ s, (PersonaInv s ∧ defaultPersonaName ∈ namesOf s.personas u) →
      PersonaInv (m s).2 ∧
        defaultPersonaName ∈ namesOf (m s).2.personas u := by
  intro s h
  exact ⟨pnames_inv hm s h.1, (hm s u).symm ▸ h.2⟩

end RIS

namespace RIS

/-- `_ensure_default_persona` establishes the default persona for its user,
preserves the persona invariant, and leaves other users' name lists
untouched — whether it finds the default or creates it. -/
theorem ensure_default_spec (u : String) (s : Ctx) :
    defaultPersonaName ∈ namesOf (ensure_default_persona u s).2.personas u ∧
    (PersonaInv s → PersonaInv (ensure_default_persona u s).2) ∧
    (∀ u', u' ≠ u →
      namesOf (ensure_default_persona u s).2.personas u' =
        namesOf s.personas u') := by
  unfold ensure_default_persona
  rw [M.bind_step (show get_personas u s =
    (.ok (s.personas.filter fun p => p.user_id == u), s) from rfl)]
  cases hf : (s.personas.filter fun p => p.user_id == u).find?
      (fun p => p.name == defaultPersonaName) with
  | some p =>
    have hpmem : p ∈ s.personas.filter fun q => q.user_id == u :=
      List.mem_of_find?_eq_some hf
    have hpname : p.name = defaultPersonaName := by
      have := List.find?_some hf
      exact eq_of_beq this
    refine ⟨?_, fun h => h, fun u' _ => rfl⟩
    show defaultPersonaName ∈ namesOf s.personas u
    unfold namesOf
    exact List.mem_map.mpr ⟨p, hpmem, hpname⟩
  | none =>
    have hnot : defaultPersonaName ∉ namesOf s.personas u := by
      intro hmem
      obtain ⟨p, hpmem, hpname⟩ := List.mem_map.mp hmem
      have := List.find?_eq_none.mp hf p hpmem
      rw [hpname] at this
      simp at this
    dsimp only
    rw [create_persona_run]
    have hrow : namesOf (s.personas ++ [⟨s.nextId, u, defaultPersonaName,
        (some "一个友善、耐心的AI助手，专门帮助用户记录和分析情感体验").getD
          ("角色: " ++ defaultPersonaName),
        pyOr (.arr [.str "友善", .str "耐心", .str "理解", .str "支持"]) (.arr []),
        pyOr (.str "温和") (.str "neutral"), 0, .str "friend"⟩]) u =
        namesOf s.personas u ++ [defaultPersonaName] := by
      rw [namesOf_append, namesOf_single]
      simp
    refine ⟨?_, ?_, ?_⟩
    · show defaultPersonaName ∈ namesOf (s.personas ++ _) u
      rw [hrow]
      simp
    · intro h u'
      by_cases hu : u' = u
      · subst hu
        show (namesOf (s.personas ++ _) u').Nodup ∧ _
        rw [hrow]
        constructor
        · rw [List.nodup_append]
          exact ⟨(h u').1, List.nodup_singleton _, by
            intro a ha hb
            simp at hb
            subst hb
            exact hnot ha⟩
        · intro _
          show defaultPersonaName ∈ namesOf (s.personas ++ _) u'
          rw [hrow]
          simp
      · have hne : (u == u') = false := by
          simp
          exact fun hc => hu hc.symm
        have heq : ∀ q : PersonaRec, q.user_id = u →
            ∀ l : List PersonaRec, namesOf (l ++ [q]) u' = namesOf l u' := by
          intro q hq l
          rw [namesOf_append, namesOf_single, hq, hne]
          simp
        show (namesOf (s.personas ++ _) u').Nodup ∧
          (namesOf (s.personas ++ _) u' ≠ [] →
            defaultPersonaName ∈ namesOf (s.personas ++ _) u')
        rw [heq _ rfl]
        exact h u'
    · intro u' hu
      show namesOf (s.personas ++ _) u' = namesOf s.personas u'
      rw [namesOf_append, namesOf_single]
      have hne : (u == u') = false := by
        simp
        exact fun hc => hu hc.symm
      rw [hne]
      simp

end RIS

namespace RIS

theorem namesOf_snoc_self (l : List PersonaRec) (q : PersonaRec)
    (u : String) (hq : q.user_id = u) :
    namesOf (l ++ [q]) u = namesOf l u ++ [q.name] := by
  rw [namesOf_append, namesOf_single, hq]
  simp

theorem namesOf_snoc_other (l : List PersonaRec) (q : PersonaRec)
    (u u' : String) (hq : q.user_id = u) (hne : u' ≠ u) :
    namesOf (l ++ [q]) u' = namesOf l u' := by
  rw [namesOf_append, namesOf_single, hq]
  have hb : (u == u') = false := by
    simp
    exact fun hc => hne hc.symm
  rw [hb]
  simp

/-- Appending one persona row whose name is fresh for its user keeps the
per-user invariant. -/
theorem personaInv_snoc (old : List PersonaRec) (q : PersonaRec)
    (u : String) (hq : q.user_id = u)
    (h : ∀ u', (namesOf old u').Nodup ∧
      (namesOf old u' ≠ [] → defaultPersonaName ∈ namesOf old u'))
    (hnotin : q.name ∉ namesOf old u)
    (hd : defaultPersonaName ∈ namesOf old u) :
    ∀ u', (namesOf (old ++ [q]) u').Nodup ∧
      (namesOf (old ++ [q]) u' ≠ [] →
        defaultPersonaName ∈ namesOf (old ++ [q]) u') := by
  intro u'
  by_cases hu : u' = u
  · subst hu
    rw [namesOf_snoc_self old q u' hq]
    refine ⟨?_, fun _ => List.mem_append_left _ hd⟩
    rw [List.nodup_append]
    refine ⟨(h u').1, List.nodup_singleton _, ?_⟩
    intro a ha hb
    simp at hb
    subst hb
    exact hnotin ha
  · rw [namesOf_snoc_other old q u u' hq hu]
    exact h u'

/-- The `_create_personas` loop keeps the persona invariant: it re-reads
the user's personas before each creation and skips names already present,
so even a persons list with repeated names creates each persona at most
once; other users' name lists are untouched. -/
theorem create_personas_loop_spec (u : String) (style : JVal) :
    ∀ (names : List String) (s : Ctx),
      PersonaInv s → defaultPersonaName ∈ namesOf s.personas u →
      PersonaInv (create_personas_loop u style names s).2 ∧
      defaultPersonaName ∈
        namesOf (create_personas_loop u style names s).2.personas u ∧
      (∀ u', u' ≠ u →
        namesOf (create_personas_loop u style names s).2.personas u' =
          namesOf s.personas u') := by
  intro names
  induction names with
  | nil => exact fun s h hd => ⟨h, hd, fun u' _ => rfl⟩
  | cons n rest ih =>
    intro s h hd
    unfold create_personas_loop
    rw [M.bind_step (show get_personas u s =
      (.ok (s.personas.filter fun p => p.user_id == u), s) from rfl)]
    try dsimp only
    by_cases hany : ((s.personas.filter fun p => p.user_id == u).any
        fun p => p.name == n) = true
    · rw [if_pos hany]
      exact ih s h hd
    · rw [if_neg hany]
      obtain ⟨info, hask⟩ := ask_json_total
        ("infer persona info for: " ++ n)
        (.obj [("personality_traits", .arr [.str "普通"]),
               ("avatar_type", .str "friend")]) s
      rw [M.bind_step hask]
      try dsimp only
      rcases hpi : pyIndex info "personality_traits"
        { s with callIdx := s.callIdx + 1 } with ⟨r₁, s₂⟩
      have hs₂ : s₂ = { s with callIdx := s.callIdx + 1 } := by
        have := pyIndex_state info "personality_traits"
          { s with callIdx := s.callIdx + 1 }
        rw [hpi] at this
        exact this
      subst hs₂
      cases r₁ with
      | error e =>
        rw [M.bind_step_err hpi]
        exact ⟨h, hd, fun u' _ => rfl⟩
      | ok traits =>
        rw [M.bind_step hpi]
        try dsimp only
        rcases hpg : pyGet style "formality" (.str "neutral")
          { s with callIdx := s.callIdx + 1 } with ⟨r₂, s₃⟩
        have hs₃ : s₃ = { s with callIdx := s.callIdx + 1 } := by
          have := pyGet_state style "formality" (.str "neutral")
            { s with callIdx := s.callIdx + 1 }
          rw [hpg] at this
          exact this
        subst hs₃
        cases r₂ with
        | error e =>
          rw [M.bind_step_err hpg]
          exact ⟨h, hd, fun u' _ => rfl⟩
        | ok commStyle =>
          rw [M.bind_step hpg]
          try dsimp only
          rcases hpa : pyGet info "avatar_type" (.str "friend")
            { s with callIdx := s.callIdx + 1 } with ⟨r₃, s₄⟩
          have hs₄ : s₄ = { s with callIdx := s.callIdx + 1 } := by
            have := pyGet_state info "avatar_type" (.str "friend")
              { s with callIdx := s.callIdx + 1 }
            rw [hpa] at this
            exact this
          subst hs₄
          cases r₃ with
          | error e =>
            rw [M.bind_step_err hpa]
            exact ⟨h, hd, fun u' _ => rfl⟩
          | ok avatar =>
            rw [M.bind_step hpa]
            try dsimp only
            rw [M.bind_step (create_persona_run u n
              (some ("对话中出现的角色：" ++ n)) traits commStyle avatar
              { s with callIdx := s.callIdx + 1 })]
            try dsimp only
            have hnotn : n ∉ namesOf s.personas u := by
              intro hmem
              obtain ⟨p, hpmem, hpname⟩ := List.mem_map.mp hmem
              refine hany (List.any_eq_true.mpr ⟨p, hpmem, ?_⟩)
              simp [hpname]
            have tail_ok : ∀ (c : NewPersona) (t : Ctx), PersonaInv t →
                defaultPersonaName ∈ namesOf t.personas u →
                PersonaInv ((M.bind (create_personas_loop u style rest)
                  (fun restList => M.pure (c :: restList))) t).2 ∧
                defaultPersonaName ∈
                  namesOf ((M.bind (create_personas_loop u style rest)
                    (fun restList => M.pure (c :: restList))) t).2.personas
                    u ∧
                (∀ u', u' ≠ u →
                  namesOf ((M.bind (create_personas_loop u style rest)
                    (fun restList => M.pure (c :: restList))) t).2.personas
                      u' = namesOf t.personas u') := by
              intro c t hInv hdt
              have hih := ih t hInv hdt
              rcases hloop : create_personas_loop u style rest t
                with ⟨r₄, s₆⟩
              rw [hloop] at hih
              unfold M.bind
              rw [hloop]
              cases r₄ with
              | ok restList => exact hih
              | error e => exact hih
            have hInvB : PersonaInv ({ s with
                personas := s.personas ++ [⟨s.nextId, u, n,
                  (some ("对话中出现的角色：" ++ n)).getD ("角色: " ++ n),
                  pyOr traits (.arr []), pyOr commStyle (.str "neutral"),
                  0, avatar⟩],
                nextId := s.nextId + 1, time := s.time + 1,
                callIdx := s.callIdx + 1 } : Ctx) :=
              fun u' => personaInv_snoc s.personas _ u rfl h hnotn hd u'
            have hdB : defaultPersonaName ∈ namesOf ({ s with
                personas := s.personas ++ [⟨s.nextId, u, n,
                  (some ("对话中出现的角色：" ++ n)).getD ("角色: " ++ n),
                  pyOr traits (.arr []), pyOr commStyle (.str "neutral"),
                  0, avatar⟩],
                nextId := s.nextId + 1, time := s.time + 1,
                callIdx := s.callIdx + 1 } : Ctx).personas u := by
              show defaultPersonaName ∈ namesOf (s.personas ++ [_]) u
              rw [namesOf_snoc_self _ _ _ rfl]
              exact List.mem_append_left _ hd
            refine ⟨(tail_ok _ _ hInvB hdB).1, (tail_ok _ _ hInvB hdB).2.1,
              fun u' hu => ((tail_ok _ _ hInvB hdB).2.2 u' hu).trans ?_⟩
            exact namesOf_snoc_other s.personas _ u u' rfl hu

end RIS

namespace RIS

theorem pu_bind (u : String) {α β : Type} {m : M α} {f : α → M β}
    (hm : ∀ s, (PersonaInv s ∧ defaultPersonaName ∈ namesOf s.personas u) →
      PersonaInv (m s).2 ∧ defaultPersonaName ∈ namesOf (m s).2.personas u)
    (hf : ∀ a s,
      (PersonaInv s ∧ defaultPersonaName ∈ namesOf s.personas u) →
      PersonaInv ((f a) s).2 ∧
        defaultPersonaName ∈ namesOf ((f a) s).2.personas u) :
    ∀ s, (PersonaInv s ∧ defaultPersonaName ∈ namesOf s.personas u) →
      PersonaInv ((M.bind m f) s).2 ∧
        defaultPersonaName ∈ namesOf ((M.bind m f) s).2.personas u :=
  bind_establishes _ _ hm hf

theorem pu_estab (u : String) {α β : Type} {m : M α} {f : α → M β}
    (hm : ∀ s, PersonaInv s → PersonaInv (m s).2 ∧
      defaultPersonaName ∈ namesOf (m s).2.personas u)
    (hf : ∀ a s,
      (PersonaInv s ∧ defaultPersonaName ∈ namesOf s.personas u) →
      PersonaInv ((f a) s).2 ∧
        defaultPersonaName ∈ namesOf ((f a) s).2.personas u) :
    ∀ s, PersonaInv s →
      PersonaInv ((M.bind m f) s).2 ∧
        defaultPersonaName ∈ namesOf ((M.bind m f) s).2.personas u :=
  bind_establishes _ _ hm hf

theorem inv_bind_total (u : String) {α β : Type} {m : M α} {f : α → M β}
    (htot : ∀ s, ∃ a s', m s = (.ok a, s'))
    (hm : ∀ s, PersonaInv s → PersonaInv (m s).2)
    (hf : ∀ a s, PersonaInv s → PersonaInv ((f a) s).2 ∧
      defaultPersonaName ∈ namesOf ((f a) s).2.personas u) :
    ∀ s, PersonaInv s → PersonaInv ((M.bind m f) s).2 ∧
      defaultPersonaName ∈ namesOf ((M.bind m f) s).2.personas u :=
  bind_total_estab PersonaInv
    (fun s => PersonaInv s ∧ defaultPersonaName ∈ namesOf s.personas u)
    htot hm hf

/-- The analysis phase keeps the persona invariant and — because the
default persona is ensured before anything else and every later stage is
persona-frame — always leaves the user's default persona in place. -/
theorem phaseA_keeps (u t ty : String) (img : Option ImageInput) :
    ∀ s, PersonaInv s →
      PersonaInv (pipeline_analysis_phase u t ty img s).2 ∧
      defaultPersonaName ∈
        namesOf (pipeline_analysis_phase u t ty img s).2.personas u := by
  unfold pipeline_analysis_phase
  refine inv_bind_total u ?_ ?_ ?_
  · exact fun s => ⟨_, _, rfl⟩
  · exact pnames_inv (pnames_get_user_profile u)
  · intro hasProfile
    refine inv_bind_total u ?_ ?_ ?_
    · intro s
      cases hasProfile <;> exact ⟨_, _, rfl⟩
    · intro s hInv
      cases hasProfile
      · exact pnames_inv (pnames_create_user_profile u) s hInv
      · exact hInv
    · intro _
      refine pu_estab u ?_ ?_
      · intro s hInv
        exact ⟨(ensure_default_spec u s).2.1 hInv,
               (ensure_default_spec u s).1⟩
      · intro _
        intro s hPu
        refine pnames_keeps u ?_ s hPu
        refine pnames_bind ?_ fun ti => ?_
        · cases img with
          | some i =>
            exact pnames_bind (pnames_analyze_image i) fun ic =>
              pnames_pure _
          | none => exact pnames_pure _
        · refine pnames_bind (pnames_ask_json _ _) fun pad => ?_
          refine pnames_bind (pnames_pyGet _ _ _) fun padValues => ?_
          refine pnames_bind (pnames_pyGet _ _ _) fun emoCat => ?_
          refine pnames_bind (pnames_pyGet _ _ _) fun label => ?_
          refine pnames_bind (pnames_log_interaction _ _ _ _ _ _)
            fun log_id => ?_
          refine pnames_bind (pnames_pyGet _ _ _) fun pv2 => ?_
          refine pnames_bind (pnames_pyGet _ _ _) fun ec2 => ?_
          refine pnames_bind (pnames_pyGet _ _ _) fun conf => ?_
          refine pnames_bind (pnames_pyGet _ _ _) fun method => ?_
          exact pnames_bind (pnames_save_emotion_analysis _ _ _ _ _)
            fun _ => pnames_pure _

/-- The extraction phase keeps the invariant: every stage is persona-frame
except the persona-creation loop, which re-checks names. -/
theorem phaseB_keeps (u t : String) (lid : Nat) (pad : JVal) :
    ∀ s, (PersonaInv s ∧ defaultPersonaName ∈ namesOf s.personas u) →
      PersonaInv (pipeline_extraction_phase u t lid pad s).2 ∧
      defaultPersonaName ∈
        namesOf (pipeline_extraction_phase u t lid pad s).2.personas u := by
  unfold pipeline_extraction_phase
  refine pu_bind u (pnames_keeps u (pnames_ask_json _ _)) ?_
  intro entities
  refine pu_bind u (pnames_keeps u (pnames_ask_json _ _)) ?_
  intro style
  refine pu_bind u (pnames_keeps u (pnames_ask_json _ _)) ?_
  intro temporal
  refine pu_bind u ?_ ?_
  · unfold create_personas
    refine pu_bind u (pnames_keeps u (pnames_pyGet _ _ _)) ?_
    intro pj
    refine pu_bind u (pnames_keeps u (pnames_pyStrList _)) ?_
    intro persons s' hPu'
    exact ⟨(create_personas_loop_spec u style persons s' hPu'.1 hPu'.2).1,
           (create_personas_loop_spec u style persons s' hPu'.1 hPu'.2).2.1⟩
  · intro nps
    refine pu_bind u (pnames_keeps u ?_) ?_
    · exact pnames_bind (pnames_get_personas u) fun ps =>
        pnames_bind (pnames_pyGet _ _ _) fun pj =>
        pnames_bind (pnames_pyStrList _) fun persons => pnames_pure _
    intro ups
    refine pu_bind u (pnames_keeps u ?_) fun mems =>
      pnames_keeps u (pnames_pure _)
    exact pnames_bind (pnames_ask_json _ _) fun topicJ =>
      pnames_bind (pnames_pyIndex _ _) fun topic =>
      pnames_bind (pnames_ask_json _ _) fun scoreJ =>
      pnames_bind (pnames_pyIndex _ _) fun score =>
      pnames_bind (pnames_pyGet _ _ _) fun emoCat =>
      pnames_bind (pnames_pyGet _ _ _) fun label =>
      pnames_bind (pnames_create_memory_event _ _ _ _ _ _ _ _ _) fun mid =>
      pnames_pure _

end RIS

namespace RIS

/-- Reply synthesis keeps the invariant: with personas present every stage
is persona-frame (the increment only changes a counter); with none, the
default is re-ensured before the stage aborts. -/
theorem reply_keeps (u : String) (pid : Option Nat) (t : String) :
    ∀ s, (PersonaInv s ∧ defaultPersonaName ∈ namesOf s.personas u) →
      PersonaInv (get_response_to_interaction u pid t s).2 ∧
      defaultPersonaName ∈
        namesOf (get_response_to_interaction u pid t s).2.personas u := by
  unfold get_response_to_interaction
  refine pu_bind u (pnames_keeps u (pnames_get_personas u)) ?_
  intro personas
  by_cases he : personas.isEmpty = true
  · simp only [he, if_true]
    refine pu_bind u ?_ ?_
    · intro s hPu
      exact ⟨(ensure_default_spec u s).2.1 hPu.1,
             (ensure_default_spec u s).1⟩
    · intro _
      exact pu_bind u (pnames_keeps u (pnames_get_personas u))
        fun _ => pnames_keeps u (pnames_throw _)
  · rw [if_neg he]
    intro s hPu
    refine pnames_keeps u ?_ s hPu
    refine pnames_bind ?_ fun speaker => ?_
    · have hgen : ∀ (o : Option PersonaRec) (l : List PersonaRec),
          PNames (match o with
            | some sp => M.pure sp
            | none =>
              match l with
              | [] => (M.throw .indexError : M PersonaRec)
              | p0 :: _ =>
                M.pure ((l.find?
                  (fun p => p.name == defaultPersonaName)).getD p0)) := by
        intro o l
        cases o with
        | some sp => exact pnames_pure _
        | none =>
          cases l with
          | nil => exact pnames_throw _
          | cons p0 ps => exact pnames_pure _
      exact hgen _ _
    · refine pnames_bind (pnames_pyJoin _ _) fun traitsStr => ?_
      refine pnames_bind (pnames_get_interaction_logs _ _)
        fun recent_logs => ?_
      refine pnames_bind (pnames_mmap (fun lg =>
        pnames_bind (pnames_pyGet _ _ _) fun _ => pnames_pure _) _)
        fun logs_snippet => ?_
      refine pnames_bind (pnames_get_memory_events _ _ _) fun mems => ?_
      refine pnames_bind (pnames_mfilter
        (fun m => pnames_pyGeFloat _ _ _) _) fun highMems => ?_
      refine pnames_bind (pnames_chat _) fun rsp => ?_
      refine pnames_bind ?_ fun _ => ?_
      · have hgen2 : ∀ (l : List LogRec) (r : String),
            PNames (match l with
              | [] => M.pure ()
              | l0 :: _ => save_assistant_reply l0.log_id r) := by
          intro l r
          cases l with
          | nil => exact pnames_pure _
          | cons l0 ls => exact pnames_save_assistant_reply _ _
        exact hgen2 _ _
      · exact pnames_bind (pnames_increment _ _) fun _ => pnames_pure _

/-- One whole pipeline invocation keeps the persona invariant. -/
theorem process_interaction_keeps (u t ty : String)
    (img : Option ImageInput) (pid : Option Nat) :
    ∀ s, PersonaInv s →
      PersonaInv (process_interaction u t ty img pid s).2 := by
  intro s h
  unfold process_interaction
  refine (bind_establishes PersonaInv
    (fun s => PersonaInv s ∧ defaultPersonaName ∈ namesOf s.personas u)
    (phaseA_keeps u t ty img) ?_ s h).1
  intro a
  refine pu_bind u (phaseB_keeps u a.1 a.2.2 a.2.1) ?_
  intro b
  refine pu_bind u (reply_keeps u pid a.1) ?_
  intro reply
  exact pu_bind u (pnames_keeps u pnames_now)
    fun ts => pnames_keeps u (pnames_pure _)

/-- Any number of sequential invocations keeps the persona invariant. -/
theorem runSeq_inv : ∀ (l : List Invocation) (s : Ctx),
    PersonaInv s → PersonaInv (runSeq l s)
  | [], _, h => h
  | i :: rest, s, h =>
    runSeq_inv rest _
      (process_interaction_keeps i.user_id i.text i.input_type i.image
        i.persona_id s h)

end RIS

namespace RIS

/-- C8.  Starting from any store satisfying the persona invariant (the
empty store in particular), after any number of sequential
`process_interaction` invocations — whatever their users, texts, images
and model responses, including persons lists repeating the same name —
no two Persona records of one user share a name, the default assistant
persona of each user exists at most once, and any user owning any persona
at all owns the default one (it is created, by `_ensure_default_persona`,
before any other persona write for that user). -/
theorem persona_uniqueness (l : List Invocation) (s : Ctx)
    (h : PersonaInv s) :
    (∀ u, (personaNames (runSeq l s) u).Nodup) ∧
    (∀ u, (personaNames (runSeq l s) u).count defaultPersonaName ≤ 1) ∧
    (∀ u, personaNames (runSeq l s) u ≠ [] →
      defaultPersonaName ∈ personaNames (runSeq l s) u) := by
  have hinv := runSeq_inv l s h
  refine ⟨fun u => (hinv u).1, fun u => ?_, fun u => (hinv u).2⟩
  exact List.nodup_iff_count_le_one.mp (hinv u).1 _

/-- Witness for C8: one happy-path invocation from the empty store. -/
theorem persona_uniqueness_witness :
    PersonaInv (initCtx oracleAlice) ∧
    ((∀ u, (personaNames (runSeq [⟨"u1", "hi", "topic", none, none⟩]
        (initCtx oracleAlice)) u).Nodup) ∧
     (∀ u, (personaNames (runSeq [⟨"u1", "hi", "topic", none, none⟩]
        (initCtx oracleAlice)) u).count defaultPersonaName ≤ 1) ∧
     (∀ u, personaNames (runSeq [⟨"u1", "hi", "topic", none, none⟩]
          (initCtx oracleAlice)) u ≠ [] →
        defaultPersonaName ∈ personaNames
          (runSeq [⟨"u1", "hi", "topic", none, none⟩]
            (initCtx oracleAlice)) u)) := by
  have hInv : PersonaInv (initCtx oracleAlice) := by
    intro u
    constructor <;> simp [personaNames, namesOf, initCtx]
  exact ⟨hInv, persona_uniqueness _ _ hInv⟩

end RIS

namespace RIS

theorem bind_state {α β : Type} {m : M α} {f : α → M β}
    (hm : ∀ t, (m t).2 = t) (hf : ∀ a t, ((f a) t).2 = t) (s : Ctx) :
    ((M.bind m f) s).2 = s := by
  unfold M.bind
  rcases hq : m s with ⟨r, s'⟩
  have hs' : s' = s := by
    have := hm s
    rw [hq] at this
    exact this
  subst hs'
  cases r with
  | ok a => exact hf a _
  | error e => rfl

theorem mmap_state {α β : Type} {f : α → M β}
    (hf : ∀ x t, ((f x) t).2 = t) :
    ∀ (xs : List α) (s : Ctx), ((mmap f xs) s).2 = s
  | [], _ => rfl
  | x :: xs, s =>
    bind_state (hf x)
      (fun y => bind_state (mmap_state hf xs) (fun ys t => rfl)) s

theorem mfilter_state {α : Type} {f : α → M Bool}
    (hf : ∀ x t, ((f x) t).2 = t) :
    ∀ (xs : List α) (s : Ctx), ((mfilter f xs) s).2 = s
  | [], _ => rfl
  | x :: xs, s =>
    bind_state (hf x)
      (fun b => bind_state (mfilter_state hf xs) (fun ys t => rfl)) s

theorem pyJoin_state (sep : String) (v : JVal) (s : Ctx) :
    (pyJoin sep v s).2 = s := by
  cases v with
  | arr xs =>
    exact bind_state
      (mmap_state (fun x t => by cases x <;> rfl) xs)
      (fun strs t => rfl) s
  | _ => rfl

theorem pyGeFloat_state (v : JVal) (tm : Int) (ts : Nat) (s : Ctx) :
    (pyGeFloat v tm ts s).2 = s := by
  cases v <;> rfl

/-- Split a bind whose first component never moves the store. -/
theorem bind_state_step {α β : Type} {m : M α} {f : α → M β} {s s' : Ctx}
    {r : Except PyErr β} (hstate : ∀ t, (m t).2 = t)
    (hok : (M.bind m f) s = (r, s')) :
    (∃ a, m s = (.ok a, s) ∧ (f a) s = (r, s')) ∨ (∃ e, r = .error e) := by
  unfold M.bind at hok
  rcases hq : m s with ⟨ra, sa⟩
  have hsa : sa = s := by
    have := hstate s
    rw [hq] at this
    exact this
  subst hsa
  rw [hq] at hok
  cases ra with
  | ok a => exact .inl ⟨a, rfl, hok⟩
  | error e =>
    refine .inr ⟨e, ?_⟩
    cases hok
    rfl

theorem chat_run_ok (msgs : List String) (s : Ctx) (c : String)
    (h : s.oracle s.callIdx = .ok c) :
    chat msgs s = (.ok c, { s with callIdx := s.callIdx + 1 }) := by
  unfold chat
  rw [h]

theorem save_assistant_reply_run (lid : Nat) (rp : String) (s : Ctx) :
    save_assistant_reply lid rp s =
      (.ok (), ⟨s.users, s.logs.map (fun l =>
        if l.log_id == lid then
          { l with processing_metadata :=
              setMeta l.processing_metadata "assistant_reply" rp }
        else l), s.memories, s.personas, s.analyses, s.time, s.nextId,
        s.callIdx, s.oracle⟩) := rfl

theorem increment_run (pid : Nat) (s : Ctx) :
    increment_persona_interaction pid 1 s =
      (.ok (), ⟨s.users, s.logs, s.memories,
        s.personas.map (fun p => if p.persona_id == pid then
          { p with interaction_count := p.interaction_count + 1 } else p),
        s.analyses, s.time + 1, s.nextId, s.callIdx, s.oracle⟩) := rfl

end RIS

namespace RIS

/-- `ORDER BY timestamp DESC` puts a strictly most-recent row first. -/
theorem sort_head_max (l : List LogRec) (L : LogRec) (hmem : L ∈ l)
    (hmax : ∀ x ∈ l, x ≠ L → x.timestamp < L.timestamp) :
    ∃ rest, l.insertionSort (fun a b => b.timestamp ≤ a.timestamp) =
      L :: rest := by
  haveI htot : IsTotal LogRec (fun a b => b.timestamp ≤ a.timestamp) :=
    ⟨fun a b => (le_total b.timestamp a.timestamp).imp id id⟩
  haveI htr : IsTrans LogRec (fun a b => b.timestamp ≤ a.timestamp) :=
    ⟨fun a b c hab hbc => le_trans hbc hab⟩
  have hperm := List.perm_insertionSort
    (fun a b => b.timestamp ≤ a.timestamp) l
  have hsorted := List.sorted_insertionSort
    (fun a b => b.timestamp ≤ a.timestamp) l
  cases hs : l.insertionSort (fun a b => b.timestamp ≤ a.timestamp) with
  | nil =>
    exfalso
    rw [hs] at hperm
    exact absurd (hperm.symm.mem_iff.mp hmem) (List.not_mem_nil L)
  | cons hd rest =>
    rw [hs] at hperm hsorted
    by_cases hhL : hd = L
    · exact ⟨rest, by rw [hhL]⟩
    · exfalso
      have hhl : hd ∈ l := hperm.mem_iff.mp (List.mem_cons_self hd rest)
      have hlt : hd.timestamp < L.timestamp := hmax hd hhl hhL
      have hLmem : L ∈ hd :: rest := hperm.mem_iff.mpr hmem
      rcases List.mem_cons.mp hLmem with hEq | hTail
      · exact hhL hEq.symm
      · have hle : L.timestamp ≤ hd.timestamp :=
          (List.sorted_cons.mp hsorted).1 L hTail
        omega

/-- The speaker resolution of `_get_response_to_interaction`: with a
non-empty persona list it always returns some member of the list, without
touching the store. -/
theorem speaker_step (pid : Option Nat) (l : List PersonaRec)
    (hne : l ≠ []) (s : Ctx) :
    ∃ sp, sp ∈ l ∧
      (match (match pid with
        | some p => l.find? (fun q : PersonaRec => q.persona_id == p)
        | none => none) with
        | some sp => M.pure sp
        | none =>
          match l with
          | [] => (M.throw .indexError : M PersonaRec)
          | p0 :: _ =>
            M.pure ((l.find?
              (fun p : PersonaRec =>
                p.name == defaultPersonaName)).getD p0)) s
      = (.ok sp, s) := by
  cases pid with
  | some p =>
    cases hf : l.find? (fun q : PersonaRec => q.persona_id == p) with
    | some sp =>
      refine ⟨sp, List.mem_of_find?_eq_some hf, ?_⟩
      dsimp only
      rw [hf]
      rfl
    | none =>
      cases l with
      | nil => exact absurd rfl hne
      | cons p0 rest =>
        cases hd : (p0 :: rest).find?
            (fun p : PersonaRec => p.name == defaultPersonaName) with
        | some sp =>
          refine ⟨sp, List.mem_of_find?_eq_some hd, ?_⟩
          dsimp only
          rw [hf]
          rfl
        | none =>
          refine ⟨p0, List.mem_cons_self p0 rest, ?_⟩
          dsimp only
          rw [hf]
          rfl
  | none =>
    cases l with
    | nil => exact absurd rfl hne
    | cons p0 rest =>
      cases hd : (p0 :: rest).find?
          (fun p : PersonaRec => p.name == defaultPersonaName) with
      | some sp =>
        refine ⟨sp, List.mem_of_find?_eq_some hd, ?_⟩
        dsimp only
        rfl
      | none =>
        refine ⟨p0, List.mem_cons_self p0 rest, ?_⟩
        dsimp only
        rfl

end RIS

namespace RIS

set_option maxHeartbeats 1000000 in
/-- C9.  When reply synthesis succeeds, the generated reply is persisted
into the processing metadata of the strictly most recent InteractionLog
of the user — the one the current invocation created — and exactly the
speaking persona's interaction counter is incremented by one; every other
log row is unchanged, every persona with a different id is unchanged, and
memories, analyses and user profiles are untouched. -/
theorem reply_persistence (u : String) (pid : Option Nat) (t : String)
    (s : Ctx) (L : LogRec) (r : ReplyResult) (s' : Ctx)
    (hL : L ∈ s.logs) (hLu : L.user_id = u)
    (hmax : ∀ l ∈ s.logs, l.user_id = u → l ≠ L →
      l.timestamp < L.timestamp)
    (hids : ∀ l ∈ s.logs, l.log_id = L.log_id → l = L)
    (hpe : s.personas.filter (fun p => p.user_id == u) ≠ [])
    (hok : get_response_to_interaction u pid t s = (.ok r, s')) :
    s'.logs = s.logs.map (fun l =>
      if l.log_id == L.log_id then
        { l with processing_metadata :=
            setMeta l.processing_metadata "assistant_reply" r.reply }
      else l) ∧
    { L with processing_metadata :=
        setMeta L.processing_metadata "assistant_reply" r.reply } ∈
      s'.logs ∧
    (∀ l ∈ s.logs, l ≠ L → l ∈ s'.logs) ∧
    (∃ sp, sp ∈ s.personas ∧ sp.persona_id = r.speaker_id ∧
      s'.personas = s.personas.map (fun p =>
        if p.persona_id == r.speaker_id then
          { p with interaction_count := p.interaction_count + 1 }
        else p)) ∧
    (∀ p ∈ s.personas, p.persona_id ≠ r.speaker_id → p ∈ s'.personas) ∧
    s'.memories = s.memories ∧ s'.analyses = s.analyses ∧
    s'.users = s.users := by
  unfold get_response_to_interaction at hok
  rw [M.bind_step (show get_personas u s =
    (.ok (s.personas.filter fun p => p.user_id == u), s) from rfl)] at hok
  try dsimp only at hok
  rw [if_neg (by
    simp only [List.isEmpty_iff]
    exact hpe)] at hok
  try dsimp only at hok
  obtain ⟨sp, hsp_mem, hok2⟩ : ∃ sp : PersonaRec,
      sp ∈ s.personas.filter (fun p => p.user_id == u) ∧
      (M.bind (pyJoin ", " sp.personality_traits) fun traitsStr =>
        let persona_desc := "你是一位 " ++ pyStr sp.avatar_type ++
          " 形象的 AI 助手，名字叫 " ++ sp.name ++ "。你的性格特征：" ++
          traitsStr ++ "。沟通风格：" ++ pyStr sp.communication_style ++
          "。请保持一致的口吻。"
        M.bind (get_interaction_logs u 5) fun recent_logs =>
        M.bind (mmap (fun lg : LogRec =>
          M.bind (pyGet lg.raw_input_data "text" (.str "")) fun humanTxt =>
          M.pure ("[" ++ pyStr lg.emotion_label ++ "] 用户: " ++
            pyStr humanTxt)) recent_logs.reverse) fun logs_snippet =>
        M.bind (get_memory_events u none 20) fun mems =>
        M.bind (mfilter (fun m : MemoryRec => pyGeFloat m.importance_score 7 1)
          mems) fun highMems =>
        let memories := highMems.take 3
        let mem_snippet := memories.map (fun m : MemoryRec =>
          "记忆(" ++ pyStr m.linked_topic ++ "): " ++ pyStr m.entities)
        let messages := [persona_desc] ++
          (if mem_snippet.isEmpty then [] else
            ["以下是与用户相关的关键记忆，请在合适时参考但不要直接复述：\n" ++
              String.intercalate "\n" mem_snippet]) ++
          (if logs_snippet.isEmpty then [] else
            ["以下是最近几轮对话摘要：\n" ++
              String.intercalate "\n" logs_snippet]) ++
          [t]
        M.bind (chat messages) fun rsp =>
        let reply := pyStrip rsp
        M.bind (match recent_logs with
          | [] => M.pure ()
          | l0 :: _ => save_assistant_reply l0.log_id reply) fun _ =>
        M.bind (increment_persona_interaction sp.persona_id) fun _ =>
        M.pure { reply := reply, speaker_id := sp.persona_id,
                 speaker_name := sp.name,
                 speaker_avatar := sp.avatar_type,
                 used_memories := memories.map (fun m : MemoryRec => m.memory_id) }) s =
        (.ok r, s') := by
    cases pid with
    | some p =>
      cases hfo : (s.personas.filter fun q => q.user_id == u).find?
          (fun q => q.persona_id == p) with
      | some sp =>
        try dsimp only at hok
        rw [hfo] at hok
        try dsimp only at hok
        rw [M.bind_step (show (M.pure sp : M PersonaRec) s =
          (.ok sp, s) from rfl)] at hok
        exact ⟨sp, List.mem_of_find?_eq_some hfo, hok⟩
      | none =>
        try dsimp only at hok
        rw [hfo] at hok
        try dsimp only at hok
        rcases hfl : s.personas.filter (fun p => p.user_id == u) with
          _ | ⟨p0, rest⟩
        · exact absurd hfl hpe
        · rw [hfl] at hok
          try dsimp only at hok
          cases hfd : (p0 :: rest).find?
              (fun p => p.name == defaultPersonaName) with
          | some spd =>
            rw [hfd] at hok
            rw [M.bind_step (show
              (M.pure ((some spd).getD p0) : M PersonaRec) s =
              (.ok spd, s) from rfl)] at hok
            refine ⟨spd, ?_, hok⟩
            rw [hfl]
            exact List.mem_of_find?_eq_some hfd
          | none =>
            rw [hfd] at hok
            rw [M.bind_step (show
              (M.pure ((none : Option PersonaRec).getD p0) :
                M PersonaRec) s = (.ok p0, s) from rfl)] at hok
            refine ⟨p0, ?_, hok⟩
            rw [hfl]
            exact List.mem_cons_self p0 rest
    | none =>
      try dsimp only at hok
      rcases hfl : s.personas.filter (fun p => p.user_id == u) with
        _ | ⟨p0, rest⟩
      · exact absurd hfl hpe
      · rw [hfl] at hok
        try dsimp only at hok
        cases hfd : (p0 :: rest).find?
            (fun p => p.name == defaultPersonaName) with
        | some spd =>
          rw [hfd] at hok
          rw [M.bind_step (show
            (M.pure ((some spd).getD p0) : M PersonaRec) s =
            (.ok spd, s) from rfl)] at hok
          refine ⟨spd, ?_, hok⟩
          rw [hfl]
          exact List.mem_of_find?_eq_some hfd
        | none =>
          rw [hfd] at hok
          rw [M.bind_step (show
            (M.pure ((none : Option PersonaRec).getD p0) :
              M PersonaRec) s = (.ok p0, s) from rfl)] at hok
          refine ⟨p0, ?_, hok⟩
          rw [hfl]
          exact List.mem_cons_self p0 rest
  clear hok
  rcases bind_state_step (pyJoin_state ", " sp.personality_traits) hok2 with
    ⟨traitsStr, -, hok3⟩ | ⟨e, hre⟩
  swap
  · exact absurd hre (by simp)
  try dsimp only at hok3
  rw [M.bind_step (show get_interaction_logs u 5 s =
    (.ok (((s.logs.filter fun l => l.user_id == u).insertionSort
      (fun a b => b.timestamp ≤ a.timestamp)).take 5), s) from rfl)] at hok3
  try dsimp only at hok3
  have hLf : L ∈ s.logs.filter fun l => l.user_id == u :=
    List.mem_filter.mpr ⟨hL, by simp [hLu]⟩
  obtain ⟨rest, hsort⟩ := sort_head_max
    (s.logs.filter fun l => l.user_id == u) L hLf (by
      intro x hx hne
      obtain ⟨hxl, hxu⟩ := List.mem_filter.mp hx
      exact hmax x hxl (by simpa using hxu) hne)
  rw [hsort, show (L :: rest).take 5 = L :: rest.take 4 from rfl] at hok3
  rcases bind_state_step (mmap_state (fun lg : LogRec =>
    bind_state (pyGet_state lg.raw_input_data "text" (.str ""))
      (fun a w => rfl)) _) hok3 with ⟨logs_snips, -, hok4⟩ | ⟨e, hre⟩
  swap
  · exact absurd hre (by simp)
  try dsimp only at hok4
  rw [M.bind_step (show get_memory_events u none 20 s =
    (.ok (((s.memories.filter (fun m => m.user_id == u &&
        match (none : Option JVal) with
        | some ty => JVal.beq m.memory_type ty
        | none => true)).insertionSort
      (fun a b => b.created_at ≤ a.created_at)).take 20), s)
    from rfl)] at hok4
  try dsimp only at hok4
  rcases bind_state_step (mfilter_state (fun m : MemoryRec =>
    pyGeFloat_state m.importance_score 7 1) _) hok4 with
    ⟨highMems, -, hok5⟩ | ⟨e, hre⟩
  swap
  · exact absurd hre (by simp)
  try dsimp only at hok5
  cases hc : s.oracle s.callIdx with
  | error e =>
    cases e
    rw [M.bind_step_err (chat_run_err _ s hc)] at hok5
    simp at hok5
  | ok c =>
    rw [M.bind_step (chat_run_ok _ s c hc)] at hok5
    try dsimp only at hok5
    rw [M.bind_step (save_assistant_reply_run L.log_id (pyStrip c) _)]
      at hok5
    try dsimp only at hok5
    rw [M.bind_step (increment_run sp.persona_id _)] at hok5
    try dsimp only at hok5
    unfold M.pure at hok5
    rw [Prod.mk.injEq] at hok5
    obtain ⟨hr, hs'⟩ := hok5
    injection hr with hr
    subst hr
    subst hs'
    refine ⟨rfl, ?_, ?_, ⟨sp, List.mem_of_mem_filter hsp_mem, rfl, rfl⟩,
      ?_, rfl, rfl, rfl⟩
    · refine List.mem_map.mpr ⟨L, hL, ?_⟩
      simp
    · intro l hl hne
      refine List.mem_map.mpr ⟨l, hl, ?_⟩
      have hbe : (l.log_id == L.log_id) = false := by
        rw [beq_eq_false_iff_ne]
        exact fun hEq => hne (hids l hl hEq)
      simp [hbe]
    · intro p hp hne
      refine List.mem_map.mpr ⟨p, hp, ?_⟩
      have hbe : (p.persona_id == sp.persona_id) = false := by
        rw [beq_eq_false_iff_ne]
        exact hne
      simp [hbe]

end RIS

namespace RIS

/-- Witness for C9: the isolated reply stage on a one-log, one-persona
store persists "yo" into that log and bumps that persona's counter. -/
theorem reply_persistence_witness :
    replyLog ∈ replyCtx.logs ∧
    ((⟨["u1"], [⟨7, "u1", 9, "topic", .obj [], .str "neutral", "",
        .obj [("text", .str "hey")], [("assistant_reply", "yo")]⟩],
      [], [{ defaultPersonaRow 3 "u1" with interaction_count := 1 }],
      [], 11, 10, 1, oracleReplyOnly⟩ : Ctx).logs =
        replyCtx.logs.map (fun l =>
          if l.log_id == replyLog.log_id then
            { l with processing_metadata :=
                setMeta l.processing_metadata "assistant_reply" "yo" }
          else l) ∧
    { replyLog with
      processing_metadata := setMeta replyLog.processing_metadata "assistant_reply" "yo" } ∈
      (⟨["u1"], [⟨7, "u1", 9, "topic", .obj [], .str "neutral", "",
        .obj [("text", .str "hey")], [("assistant_reply", "yo")]⟩],
      [], [{ defaultPersonaRow 3 "u1" with interaction_count := 1 }],
      [], 11, 10, 1, oracleReplyOnly⟩ : Ctx).logs ∧
    (∀ l ∈ replyCtx.logs, l ≠ replyLog →
      l ∈ (⟨["u1"], [⟨7, "u1", 9, "topic", .obj [], .str "neutral", "",
        .obj [("text", .str "hey")], [("assistant_reply", "yo")]⟩],
      [], [{ defaultPersonaRow 3 "u1" with interaction_count := 1 }],
      [], 11, 10, 1, oracleReplyOnly⟩ : Ctx).logs) ∧
    (∃ sp, sp ∈ replyCtx.personas ∧ sp.persona_id = 3 ∧
      (⟨["u1"], [⟨7, "u1", 9, "topic", .obj [], .str "neutral", "",
        .obj [("text", .str "hey")], [("assistant_reply", "yo")]⟩],
      [], [{ defaultPersonaRow 3 "u1" with interaction_count := 1 }],
      [], 11, 10, 1, oracleReplyOnly⟩ : Ctx).personas =
        replyCtx.personas.map (fun p =>
          if p.persona_id == 3 then
            { p with interaction_count := p.interaction_count + 1 }
          else p)) ∧
    (∀ p ∈ replyCtx.personas, p.persona_id ≠ 3 →
      p ∈ (⟨["u1"], [⟨7, "u1", 9, "topic", .obj [], .str "neutral", "",
        .obj [("text", .str "hey")], [("assistant_reply", "yo")]⟩],
      [], [{ defaultPersonaRow 3 "u1" with interaction_count := 1 }],
      [], 11, 10, 1, oracleReplyOnly⟩ : Ctx).personas) ∧
    (⟨["u1"], [⟨7, "u1", 9, "topic", .obj [], .str "neutral", "",
        .obj [("text", .str "hey")], [("assistant_reply", "yo")]⟩],
      [], [{ defaultPersonaRow 3 "u1" with interaction_count := 1 }],
      [], 11, 10, 1, oracleReplyOnly⟩ : Ctx).memories =
      replyCtx.memories ∧
    (⟨["u1"], [⟨7, "u1", 9, "topic", .obj [], .str "neutral", "",
        .obj [("text", .str "hey")], [("assistant_reply", "yo")]⟩],
      [], [{ defaultPersonaRow 3 "u1" with interaction_count := 1 }],
      [], 11, 10, 1, oracleReplyOnly⟩ : Ctx).analyses =
      replyCtx.analyses ∧
    (⟨["u1"], [⟨7, "u1", 9, "topic", .obj [], .str "neutral", "",
        .obj [("text", .str "hey")], [("assistant_reply", "yo")]⟩],
      [], [{ defaultPersonaRow 3 "u1" with interaction_count := 1 }],
      [], 11, 10, 1, oracleReplyOnly⟩ : Ctx).users = replyCtx.users) := by
  have h1 : replyLog ∈ replyCtx.logs := List.mem_singleton.mpr rfl
  have h3 : ∀ l ∈ replyCtx.logs, l.user_id = "u1" → l ≠ replyLog →
      l.timestamp < replyLog.timestamp := by
    intro l hl _ hne
    simp only [replyCtx, List.mem_singleton] at hl
    exact absurd hl hne
  have h4 : ∀ l ∈ replyCtx.logs, l.log_id = replyLog.log_id →
      l = replyLog := by
    intro l hl _
    simpa [replyCtx] using hl
  have h5 : replyCtx.personas.filter (fun p => p.user_id == "u1") ≠ [] := by
    rw [show replyCtx.personas.filter (fun p => p.user_id == "u1") =
      [defaultPersonaRow 3 "u1"] from rfl]
    simp
  exact ⟨h1, reply_persistence "u1" none "hi" replyCtx replyLog
    ⟨"yo", 3, "小助手", .str "friend", []⟩
    ⟨["u1"], [⟨7, "u1", 9, "topic", .obj [], .str "neutral", "",
        .obj [("text", .str "hey")], [("assistant_reply", "yo")]⟩],
      [], [{ defaultPersonaRow 3 "u1" with interaction_count := 1 }],
      [], 11, 10, 1, oracleReplyOnly⟩
    h1 rfl h3 h4 h5 rfl⟩

end RIS
